import Mathlib

/-!
Shadow `torcontrol` statistics plug-in: handshake state machine.

A shallow embedding of `src/plugins/torcontrol/shd-torcontrol-statistics.c`.

* C structs become Lean structures, the C enumeration becomes an inductive type.
* The code is stateful and talks to two collaborators that live outside the file:
  the control channel (`torControl_authenticate`, `torControl_setevents`) and the
  injected log function.  Both are made explicit: every function takes the session
  and a `World` and returns the new session and the new `World`.  The `World` holds
  the chronological trace of everything the module did to its collaborators and an
  oracle that fixes what each send attempt returns.
* `goto beginmanage` is a recursive call.
-/

set_option linter.unusedVariables false

/-! ## Data model -/

/-- The enumeration `torcontrolstatistic_state`.  The five enumerators are the ones the
source names; `unnamed raw` stands for any other integer value the field may hold
(the `default:` arm of the `switch`). -/
inductive torcontrolstatistic_state where
  | TCS_SEND_AUTHENTICATE
  | TCS_RECV_AUTHENTICATE
  | TCS_SEND_SETEVENTS
  | TCS_RECV_SETEVENTS
  | TCS_IDLE
  | unnamed (raw : Int)
  deriving DecidableEq

open torcontrolstatistic_state

/-- The GLib log levels (`GLogLevelFlags`); the file uses `G_LOG_LEVEL_CRITICAL` and
`G_LOG_LEVEL_MESSAGE`. -/
inductive GLogLevelFlags where
  | G_LOG_LEVEL_ERROR
  | G_LOG_LEVEL_CRITICAL
  | G_LOG_LEVEL_WARNING
  | G_LOG_LEVEL_MESSAGE
  | G_LOG_LEVEL_INFO
  | G_LOG_LEVEL_DEBUG
  deriving DecidableEq

open GLogLevelFlags

/-- One variadic argument handed to the log function after the format string. -/
inductive LogArg where
  | int (v : Int)
  | str (s : String)
  deriving DecidableEq

/-- One observable action of the module on its collaborators.
* `log sink level function format args`: a call `sink(level, function, format, args...)`;
* `authenticate sockd password result`: a call `torControl_authenticate(sockd, password)`
  that returned `result`;
* `setevents sockd events result`: a call `torControl_setevents(sockd, events)` that
  returned `result`. -/
inductive Output where
  | log (sink : Nat) (level : GLogLevelFlags) (function : String) (format : String)
      (args : List LogArg)
  | authenticate (sockd : Int) (password : String) (result : Int)
  | setevents (sockd : Int) (events : String) (result : Int)
  deriving DecidableEq

/-- The part of the program state that lives outside the session: `sendResults k` is
what the channel returns to the `k`-th send attempt (counted from 0), `sendCount` is the
number of send attempts made so far, `trace` lists the actions performed so far, oldest
first. -/
structure World where
  sendResults : Nat → Int
  sendCount : Nat
  trace : List Output

/-- A world in which nothing has happened yet. -/
def World.fresh (sendResults : Nat → Int) : World :=
  { sendResults := sendResults, sendCount := 0, trace := [] }

/-- The struct `_TorControlStatistics`.  `log` is the injected function pointer, kept as
an identity that is recorded with every call made through it.  `targetPort` has the C
type `in_port_t` and `targetIP` the type `in_addr_t`. -/
structure TorControlStatistics where
  log : Nat
  currentState : torcontrolstatistic_state
  nextState : torcontrolstatistic_state
  targetHostname : String
  targetIP : Nat
  targetPort : Nat
  targetSockd : Int
  deriving DecidableEq

/-- The two fields of `TorControl_ReplyLine` that the file reads. -/
structure TorControl_ReplyLine where
  code : Int
  body : String
  deriving DecidableEq

/-- Modelled from the spec: the macro `TORCTL_CODE_TYPE` and the constants
`TORCTL_REPLY_ERROR` and `TORCTL_REPLY_SUCCESS` are declared in `shd-torcontrol.h`, which
is not part of the sources.  The spec's Reply Classifier "maps a numeric status code to
{Success, Error, Unrecognized}"; the three classes are the three arms of the `switch`
in `_torcontrolstatistics_handleResponseEvent`.  The map itself is a parameter of every
definition that uses it. -/
inductive TorControl_ReplyType where
  | TORCTL_REPLY_ERROR
  | TORCTL_REPLY_SUCCESS
  | unrecognized
  deriving DecidableEq

open TorControl_ReplyType

/-! ## Collaborators -/

/-- Performs the call `tstats->log(level, function, format, args...)`. -/
def World.callLog (w : World) (sink : Nat) (level : GLogLevelFlags) (function : String)
    (format : String) (args : List LogArg) : World :=
  { w with trace := w.trace ++ [Output.log sink level function format args] }

/-- Modelled from the spec: `torControl_authenticate` is defined in `shd-torcontrol.c`,
which is not part of the sources.  It sends `AUTHENTICATE "<shared-secret>"` through the
channel; its integer result is positive when the send succeeded.  The result is read
from the oracle and the attempt is recorded. -/
def torControl_authenticate (sockd : Int) (password : String) (w : World) : Int × World :=
  (w.sendResults w.sendCount,
   { w with sendCount := w.sendCount + 1,
            trace := w.trace ++ [Output.authenticate sockd password (w.sendResults w.sendCount)] })

/-- Modelled from the spec: `torControl_setevents` is defined in `shd-torcontrol.c`,
which is not part of the sources.  It sends `SETEVENTS <events>` through the channel; its
integer result is positive when the send succeeded. -/
def torControl_setevents (sockd : Int) (events : String) (w : World) : Int × World :=
  (w.sendResults w.sendCount,
   { w with sendCount := w.sendCount + 1,
            trace := w.trace ++ [Output.setevents sockd events (w.sendResults w.sendCount)] })

/-! ## The state machine -/

/-- Number of `goto beginmanage` jumps that can still follow from a state. -/
def gotoBudget : torcontrolstatistic_state → Nat
  | TCS_RECV_AUTHENTICATE => 1
  | TCS_RECV_SETEVENTS => 1
  | _ => 0

/-- The function `_torcontrolstatistics_manageState`: returns the `gboolean` result, the
session and the world. -/
def _torcontrolstatistics_manageState (tstats : TorControlStatistics) (w : World) :
    Bool × TorControlStatistics × World :=
  match h : tstats.currentState with
  | TCS_SEND_AUTHENTICATE =>
    let r := torControl_authenticate tstats.targetSockd "password" w
    if r.1 > 0 then
      (false, { tstats with currentState := TCS_IDLE, nextState := TCS_RECV_AUTHENTICATE }, r.2)
    else
      (false, tstats, r.2)
  | TCS_RECV_AUTHENTICATE =>
    _torcontrolstatistics_manageState { tstats with currentState := TCS_SEND_SETEVENTS } w
  | TCS_SEND_SETEVENTS =>
    let r := torControl_setevents tstats.targetSockd "CIRC STREAM ORCONN BW STREAM_BW" w
    if r.1 > 0 then
      (false, { tstats with currentState := TCS_IDLE, nextState := TCS_RECV_SETEVENTS }, r.2)
    else
      (false, tstats, r.2)
  | TCS_RECV_SETEVENTS =>
    _torcontrolstatistics_manageState
      { tstats with currentState := TCS_IDLE, nextState := TCS_IDLE } w
  | TCS_IDLE =>
    if tstats.nextState = TCS_IDLE then (true, tstats, w) else (false, tstats, w)
  | unnamed _ => (false, tstats, w)
termination_by gotoBudget tstats.currentState
decreasing_by
  all_goals simp [h, gotoBudget]

/-- The function `_torcontrolstatistics_handleResponseEvent`.  `reply` is the `GList` of
reply lines; `g_list_first` of the empty list is `NULL` and reading its `data` is
undefined, which is the result `none`.  The unused `userData` pointer is left out.
`TORCTL_CODE_TYPE` is the classification of status codes from the absent header. -/
def _torcontrolstatistics_handleResponseEvent (TORCTL_CODE_TYPE : Int → TorControl_ReplyType)
    (tstats : TorControlStatistics) (reply : List TorControl_ReplyLine) (w : World) :
    Option (TorControlStatistics × World) :=
  match reply with
  | [] => none
  | replyLine :: _ =>
    match TORCTL_CODE_TYPE replyLine.code with
    | TORCTL_REPLY_ERROR =>
      some (tstats, w.callLog tstats.log G_LOG_LEVEL_CRITICAL
        "_torcontrolstatistics_handleResponseEvent" "[%d] ERROR: %s"
        [LogArg.int replyLine.code, LogArg.str replyLine.body])
    | TORCTL_REPLY_SUCCESS =>
      let w1 := w.callLog tstats.log G_LOG_LEVEL_MESSAGE
        "_torcontrolstatistics_handleResponseEvent" "[%d] SUCCESS: %s"
        [LogArg.int replyLine.code, LogArg.str replyLine.body]
      let r := _torcontrolstatistics_manageState
        { tstats with currentState := tstats.nextState } w1
      some (r.2.1, r.2.2)
    | unrecognized => some (tstats, w)

/-! ## Asynchronous events

Each handler receives the parsed payload and the raw line.  Arguments of type `gint`
are integers, `gchar*` and `GString*` are strings, `in_addr_t` and `in_port_t` are
naturals, `GDateTime*` is an identity, and a `double` is passed as its 64-bit pattern. -/

/-- The function `_torcontrolstatistics_handleORConnEvent`. -/
def _torcontrolstatistics_handleORConnEvent (tstats : TorControlStatistics) (code : Int)
    (line : String) (connID : Int) (target : String) (status : Int) (reason : Int)
    (numCircuits : Int) (w : World) : TorControlStatistics × World :=
  (tstats, w.callLog tstats.log G_LOG_LEVEL_MESSAGE "_torcontrolstatistics_handleORConnEvent"
    "%s:%i %s" [LogArg.str tstats.targetHostname, LogArg.int tstats.targetPort, LogArg.str line])

/-- The function `_torcontrolstatistics_handleCircEvent`. -/
def _torcontrolstatistics_handleCircEvent (tstats : TorControlStatistics) (code : Int)
    (line : String) (circID : Int) (path : String) (status : Int) (buildFlags : Int)
    (purpose : Int) (reason : Int) (createTime : Nat) (w : World) :
    TorControlStatistics × World :=
  (tstats, w.callLog tstats.log G_LOG_LEVEL_MESSAGE "_torcontrolstatistics_handleCircEvent"
    "%s:%i %s" [LogArg.str tstats.targetHostname, LogArg.int tstats.targetPort, LogArg.str line])

/-- The function `_torcontrolstatistics_handleStreamEvent`. -/
def _torcontrolstatistics_handleStreamEvent (tstats : TorControlStatistics) (code : Int)
    (line : String) (streamID : Int) (circID : Int) (targetIP : Nat) (targetPort : Nat)
    (status : Int) (reason : Int) (remoteReason : Int) (source : String) (sourceIP : Nat)
    (sourcePort : Nat) (purpose : Int) (w : World) : TorControlStatistics × World :=
  (tstats, w.callLog tstats.log G_LOG_LEVEL_MESSAGE "_torcontrolstatistics_handleStreamEvent"
    "%s:%i %s" [LogArg.str tstats.targetHostname, LogArg.int tstats.targetPort, LogArg.str line])

/-- The function `_torcontrolstatistics_handleBWEvent`. -/
def _torcontrolstatistics_handleBWEvent (tstats : TorControlStatistics) (code : Int)
    (line : String) (bytesRead : Int) (bytesWritten : Int) (w : World) :
    TorControlStatistics × World :=
  (tstats, w.callLog tstats.log G_LOG_LEVEL_MESSAGE "_torcontrolstatistics_handleBWEvent"
    "%s:%i %s" [LogArg.str tstats.targetHostname, LogArg.int tstats.targetPort, LogArg.str line])

/-- The function `_torcontrolstatistics_handleExtendedBWEvent`. -/
def _torcontrolstatistics_handleExtendedBWEvent (tstats : TorControlStatistics) (code : Int)
    (line : String) (type : String) (id : Int) (bytesRead : Int) (bytesWritten : Int)
    (w : World) : TorControlStatistics × World :=
  (tstats, w.callLog tstats.log G_LOG_LEVEL_MESSAGE
    "_torcontrolstatistics_handleExtendedBWEvent"
    "%s:%i %s" [LogArg.str tstats.targetHostname, LogArg.int tstats.targetPort, LogArg.str line])

/-- The function `_torcontrolstatistics_handleCellStatsEvent`. -/
def _torcontrolstatistics_handleCellStatsEvent (tstats : TorControlStatistics) (code : Int)
    (line : String) (circID : Int) (nextHopCircID : Int) (prevHopCircID : Int)
    (appProcessed : Int) (appTotalWaitMillis : Int) (appMeanQueueLength : Nat)
    (exitProcessed : Int) (exitTotalWaitMillis : Int) (exitMeanQueueLength : Nat)
    (w : World) : TorControlStatistics × World :=
  (tstats, w.callLog tstats.log G_LOG_LEVEL_MESSAGE
    "_torcontrolstatistics_handleCellStatsEvent"
    "%s:%i %s" [LogArg.str tstats.targetHostname, LogArg.int tstats.targetPort, LogArg.str line])

/-! ## Construction and the callback table -/

/-- The function `torcontrolstatistics_new`.  `g_new0` zero-fills the struct and only
`currentState` is assigned afterwards, so `nextState` starts as the state whose value
is 0; the header that numbers the enumerators is not part of the sources, so that state
is the parameter `zeroState`.  The unused `args` and the `handlers` table (see
`HostCall`) are left out. -/
def torcontrolstatistics_new (zeroState : torcontrolstatistic_state) (logFunc : Nat)
    (hostname : String) (ip : Nat) (port : Nat) (sockd : Int) : TorControlStatistics :=
  { log := logFunc
    currentState := TCS_SEND_AUTHENTICATE
    nextState := zeroState
    targetHostname := hostname
    targetIP := ip
    targetPort := port
    targetSockd := sockd }

/-- One invocation by the host of an entry of the `TorControl_EventHandlers` table that
`torcontrolstatistics_new` fills in (`free` apart, after which nothing is invoked).
`init` is the table entry `initialize`.  A reply always has a first line. -/
inductive HostCall where
  | init
  | responseEvent (first : TorControl_ReplyLine) (rest : List TorControl_ReplyLine)
  | orconnEvent (code : Int) (line : String) (connID : Int) (target : String) (status : Int)
      (reason : Int) (numCircuits : Int)
  | circEvent (code : Int) (line : String) (circID : Int) (path : String) (status : Int)
      (buildFlags : Int) (purpose : Int) (reason : Int) (createTime : Nat)
  | streamEvent (code : Int) (line : String) (streamID : Int) (circID : Int) (targetIP : Nat)
      (targetPort : Nat) (status : Int) (reason : Int) (remoteReason : Int) (source : String)
      (sourceIP : Nat) (sourcePort : Nat) (purpose : Int)
  | bwEvent (code : Int) (line : String) (bytesRead : Int) (bytesWritten : Int)
  | extendedBWEvent (code : Int) (line : String) (type : String) (id : Int) (bytesRead : Int)
      (bytesWritten : Int)
  | cellStatsEvent (code : Int) (line : String) (circID : Int) (nextHopCircID : Int)
      (prevHopCircID : Int) (appProcessed : Int) (appTotalWaitMillis : Int)
      (appMeanQueueLength : Nat) (exitProcessed : Int) (exitTotalWaitMillis : Int)
      (exitMeanQueueLength : Nat)

/-- Dispatch of one host invocation through the handler table. -/
def hostCall (TORCTL_CODE_TYPE : Int → TorControl_ReplyType) (c : HostCall)
    (x : TorControlStatistics × World) : Option (TorControlStatistics × World) :=
  match c with
  | HostCall.init => some (_torcontrolstatistics_manageState x.1 x.2).2
  | HostCall.responseEvent first rest =>
    _torcontrolstatistics_handleResponseEvent TORCTL_CODE_TYPE x.1 (first :: rest) x.2
  | HostCall.orconnEvent code line connID target status reason numCircuits =>
    some (_torcontrolstatistics_handleORConnEvent x.1 code line connID target status reason
      numCircuits x.2)
  | HostCall.circEvent code line circID path status buildFlags purpose reason createTime =>
    some (_torcontrolstatistics_handleCircEvent x.1 code line circID path status buildFlags
      purpose reason createTime x.2)
  | HostCall.streamEvent code line streamID circID targetIP targetPort status reason
      remoteReason source sourceIP sourcePort purpose =>
    some (_torcontrolstatistics_handleStreamEvent x.1 code line streamID circID targetIP
      targetPort status reason remoteReason source sourceIP sourcePort purpose x.2)
  | HostCall.bwEvent code line bytesRead bytesWritten =>
    some (_torcontrolstatistics_handleBWEvent x.1 code line bytesRead bytesWritten x.2)
  | HostCall.extendedBWEvent code line type id bytesRead bytesWritten =>
    some (_torcontrolstatistics_handleExtendedBWEvent x.1 code line type id bytesRead
      bytesWritten x.2)
  | HostCall.cellStatsEvent code line circID nextHopCircID prevHopCircID appProcessed
      appTotalWaitMillis appMeanQueueLength exitProcessed exitTotalWaitMillis
      exitMeanQueueLength =>
    some (_torcontrolstatistics_handleCellStatsEvent x.1 code line circID nextHopCircID
      prevHopCircID appProcessed appTotalWaitMillis appMeanQueueLength exitProcessed
      exitTotalWaitMillis exitMeanQueueLength x.2)

/-- A sequence of host invocations, delivered one after the other. -/
def hostCalls (TORCTL_CODE_TYPE : Int → TorControl_ReplyType) :
    List HostCall → TorControlStatistics × World → Option (TorControlStatistics × World)
  | [], x => some x
  | c :: cs, x => (hostCall TORCTL_CODE_TYPE c x).bind (hostCalls TORCTL_CODE_TYPE cs)

/-- Whether the invocation is one of the six asynchronous event handlers. -/
def HostCall.isEvent : HostCall → Bool
  | HostCall.init => false
  | HostCall.responseEvent _ _ => false
  | _ => true

/-- Whether the invocation delivers a command reply. -/
def HostCall.isReply : HostCall → Bool
  | HostCall.responseEvent _ _ => true
  | _ => false

/-- Whether the invocation delivers a reply whose first line is of the success class. -/
def HostCall.isSuccessReply (TORCTL_CODE_TYPE : Int → TorControl_ReplyType) : HostCall → Bool
  | HostCall.responseEvent first _ => TORCTL_CODE_TYPE first.code = TORCTL_REPLY_SUCCESS
  | _ => false

/-- Whether a trace entry is a command sent through the channel. -/
def Output.isCommand : Output → Bool
  | Output.log _ _ _ _ _ => false
  | Output.authenticate _ _ _ => true
  | Output.setevents _ _ _ => true

/-- The outbound command trace: the commands of a trace, in order. -/
def commands (trace : List Output) : List Output :=
  trace.filter Output.isCommand

/-- A classification of status codes by their hundreds digit (2xx success, 5xx error),
used to run the definitions on concrete replies. -/
def hundredsCodeType (code : Int) : TorControl_ReplyType :=
  if code / 100 = 2 then TORCTL_REPLY_SUCCESS
  else if code / 100 = 5 then TORCTL_REPLY_ERROR
  else unrecognized

/-- The number of invocations in a sequence that deliver a success-class reply. -/
def successReplies (TORCTL_CODE_TYPE : Int → TorControl_ReplyType) (cs : List HostCall) : Nat :=
  (cs.filter (HostCall.isSuccessReply TORCTL_CODE_TYPE)).length

/-- The record of a run: for every invocation, in order, the invocation itself, the
session as it is when the invocation returns, and the outbound command trace at that
moment. -/
def history (TORCTL_CODE_TYPE : Int → TorControl_ReplyType) :
    List HostCall → TorControlStatistics × World →
      List (HostCall × TorControlStatistics × List Output)
  | [], _ => []
  | c :: cs, x =>
    match hostCall TORCTL_CODE_TYPE c x with
    | none => []
    | some y => (c, y.1, commands y.2.trace) :: history TORCTL_CODE_TYPE cs y

/-- Modelled from the spec: the log sink is "an injected function that only formats and
emits a message" and is not part of the sources.  This is the formatting of the
directives the file uses: `%s` prints a string argument, `%i` and `%d` print an integer
argument in decimal; every other character is copied. -/
def formatChars : List Char → List LogArg → List Char
  | [], _ => []
  | '%' :: 's' :: fmt, LogArg.str s :: args => s.data ++ formatChars fmt args
  | '%' :: 'i' :: fmt, LogArg.int v :: args => (toString v).data ++ formatChars fmt args
  | '%' :: 'd' :: fmt, LogArg.int v :: args => (toString v).data ++ formatChars fmt args
  | c :: fmt, args => c :: formatChars fmt args

/-- The message a log call renders. -/
def renderMessage (format : String) (args : List LogArg) : String :=
  String.mk (formatChars format.data args)

/-- The situation between two host invocations once AUTHENTICATE has been sent on socket
`sockd` over a channel with oracle `sendResults`: the session has `currentState = TCS_IDLE`
and either waits for the reply to AUTHENTICATE, the only command sent so far, or
SETEVENTS has been sent after it and the session waits for its reply or has completed.
It is the invariant of the proofs about runs. -/
def AuthenticateSent (sockd : Int) (sendResults : Nat → Int) (s : TorControlStatistics)
    (w : World) : Prop :=
  s.currentState = TCS_IDLE ∧ s.targetSockd = sockd ∧ w.sendResults = sendResults ∧
  ((s.nextState = TCS_RECV_AUTHENTICATE ∧ w.sendCount = 1 ∧
      commands w.trace = [Output.authenticate sockd "password" (sendResults 0)]) ∨
   ((s.nextState = TCS_RECV_SETEVENTS ∨ s.nextState = TCS_IDLE) ∧
      commands w.trace =
        [Output.authenticate sockd "password" (sendResults 0),
         Output.setevents sockd "CIRC STREAM ORCONN BW STREAM_BW" (sendResults 1)]))

/-- A session as `torcontrolstatistics_new` returns it, used to run the definitions on
concrete inputs: host 10.0.0.5, control port 9051, socket 3. -/
def sampleSession : TorControlStatistics :=
  torcontrolstatistics_new TCS_SEND_AUTHENTICATE 7 "10.0.0.5" 167772165 9051 3

/-- The sample session once AUTHENTICATE has been sent. -/
def sampleAwaitingAuthenticate : TorControlStatistics :=
  { sampleSession with currentState := TCS_IDLE, nextState := TCS_RECV_AUTHENTICATE }

/-- A channel on which every send succeeds. -/
def allSendsSucceed : Nat → Int := fun _ => 1

/-- A channel on which only the first send succeeds. -/
def onlyFirstSendSucceeds : Nat → Int := fun k => if k = 0 then 1 else 0

/-! ## The dispatch point, one evaluation at a time -/

/-- How one evaluation of `switch (tstats->currentState)` at the label `beginmanage`
ends: with `goto beginmanage` (`again`), or by leaving the function with its result
(`returned`). -/
inductive Dispatch where
  | again (tstats : TorControlStatistics) (w : World)
  | returned (result : Bool) (tstats : TorControlStatistics) (w : World)

/-- The world at the end of one evaluation of the dispatch point. -/
def Dispatch.world : Dispatch → World
  | Dispatch.again _ w => w
  | Dispatch.returned _ _ w => w

/-- Whether the evaluation left the function. -/
def Dispatch.isReturn : Dispatch → Bool
  | Dispatch.again _ _ => false
  | Dispatch.returned _ _ _ => true

/-- One evaluation of the dispatch point of `_torcontrolstatistics_manageState`: the body
of the `switch` up to the next `goto beginmanage` or to the end of the function. -/
def dispatchPoint (tstats : TorControlStatistics) (w : World) : Dispatch :=
  match tstats.currentState with
  | TCS_SEND_AUTHENTICATE =>
    let r := torControl_authenticate tstats.targetSockd "password" w
    if r.1 > 0 then
      Dispatch.returned false
        { tstats with currentState := TCS_IDLE, nextState := TCS_RECV_AUTHENTICATE } r.2
    else
      Dispatch.returned false tstats r.2
  | TCS_RECV_AUTHENTICATE =>
    Dispatch.again { tstats with currentState := TCS_SEND_SETEVENTS } w
  | TCS_SEND_SETEVENTS =>
    let r := torControl_setevents tstats.targetSockd "CIRC STREAM ORCONN BW STREAM_BW" w
    if r.1 > 0 then
      Dispatch.returned false
        { tstats with currentState := TCS_IDLE, nextState := TCS_RECV_SETEVENTS } r.2
    else
      Dispatch.returned false tstats r.2
  | TCS_RECV_SETEVENTS =>
    Dispatch.again { tstats with currentState := TCS_IDLE, nextState := TCS_IDLE } w
  | TCS_IDLE =>
    if tstats.nextState = TCS_IDLE then Dispatch.returned true tstats w
    else Dispatch.returned false tstats w
  | unnamed _ => Dispatch.returned false tstats w

/-- The function `_torcontrolstatistics_manageState` run with at most `evaluations`
evaluations of its dispatch point: `none` when that many do not reach the end of the
function. -/
def manageStateWithin : (evaluations : Nat) → TorControlStatistics → World →
    Option (Bool × TorControlStatistics × World)
  | 0, _, _ => none
  | n + 1, tstats, w =>
    match dispatchPoint tstats w with
    | Dispatch.returned result t w1 => some (result, t, w1)
    | Dispatch.again t w1 => manageStateWithin n t w1

/-! ## The argument of SETEVENTS -/

/-- The words of a line of text: its maximal runs between blanks. -/
def wordsOf : List Char → List (List Char)
  | [] => [[]]
  | c :: cs =>
    if c = ' ' then [] :: wordsOf cs
    else
      match wordsOf cs with
      | [] => [[c]]
      | word :: rest => (c :: word) :: rest

/-- Modelled from the spec: how the peer reads the argument of SETEVENTS belongs to the
control protocol, outside the sources.  The spec writes the command as `SETEVENTS`
followed by the event names, separated by blanks; these are the names. -/
def eventNames (events : String) : List String :=
  (wordsOf events.data).map String.mk

/-! ## The state machine, state by state -/

theorem manageState_send_authenticate (s : TorControlStatistics) (w : World)
    (h : s.currentState = TCS_SEND_AUTHENTICATE) :
    _torcontrolstatistics_manageState s w =
      if 0 < w.sendResults w.sendCount then
        (false, { s with currentState := TCS_IDLE, nextState := TCS_RECV_AUTHENTICATE },
          (torControl_authenticate s.targetSockd "password" w).2)
      else (false, s, (torControl_authenticate s.targetSockd "password" w).2) := by
  rw [_torcontrolstatistics_manageState]
  split <;> simp_all [torControl_authenticate]

theorem manageState_send_setevents (s : TorControlStatistics) (w : World)
    (h : s.currentState = TCS_SEND_SETEVENTS) :
    _torcontrolstatistics_manageState s w =
      if 0 < w.sendResults w.sendCount then
        (false, { s with currentState := TCS_IDLE, nextState := TCS_RECV_SETEVENTS },
          (torControl_setevents s.targetSockd "CIRC STREAM ORCONN BW STREAM_BW" w).2)
      else
        (false, s, (torControl_setevents s.targetSockd "CIRC STREAM ORCONN BW STREAM_BW" w).2) := by
  rw [_torcontrolstatistics_manageState]
  split <;> simp_all [torControl_setevents]

theorem manageState_recv_authenticate (s : TorControlStatistics) (w : World)
    (h : s.currentState = TCS_RECV_AUTHENTICATE) :
    _torcontrolstatistics_manageState s w =
      _torcontrolstatistics_manageState { s with currentState := TCS_SEND_SETEVENTS } w := by
  rw [_torcontrolstatistics_manageState]
  split <;> simp_all

theorem manageState_idle (s : TorControlStatistics) (w : World)
    (h : s.currentState = TCS_IDLE) :
    _torcontrolstatistics_manageState s w =
      if s.nextState = TCS_IDLE then (true, s, w) else (false, s, w) := by
  rw [_torcontrolstatistics_manageState]
  split <;> simp_all

theorem manageState_recv_setevents (s : TorControlStatistics) (w : World)
    (h : s.currentState = TCS_RECV_SETEVENTS) :
    _torcontrolstatistics_manageState s w =
      (true, { s with currentState := TCS_IDLE, nextState := TCS_IDLE }, w) := by
  rw [_torcontrolstatistics_manageState]
  split <;> simp_all [manageState_idle]

theorem manageState_unnamed (s : TorControlStatistics) (w : World) (raw : Int)
    (h : s.currentState = unnamed raw) :
    _torcontrolstatistics_manageState s w = (false, s, w) := by
  rw [_torcontrolstatistics_manageState]
  split <;> simp_all

/-- What a step does to the world does not depend on the trace it starts from: it appends
at most one entry, a command, and makes as many send attempts as it appends entries. -/
theorem manageState_world (s : TorControlStatistics) (w : World) :
    ∃ cmds : List Output, (∀ o ∈ cmds, o.isCommand = true) ∧ cmds.length ≤ 1 ∧
      ∀ t : List Output,
        _torcontrolstatistics_manageState s { w with trace := t } =
          ((_torcontrolstatistics_manageState s w).1,
           (_torcontrolstatistics_manageState s w).2.1,
           { sendResults := w.sendResults, sendCount := w.sendCount + cmds.length,
             trace := t ++ cmds }) := by
  rcases h : s.currentState with _ | _ | _ | _ | _ | raw
  · refine ⟨[Output.authenticate s.targetSockd "password" (w.sendResults w.sendCount)],
      by simp [Output.isCommand], by simp, fun t => ?_⟩
    rw [manageState_send_authenticate _ _ h, manageState_send_authenticate _ _ h]
    by_cases hr : 0 < w.sendResults w.sendCount <;> simp [hr, torControl_authenticate]
  · refine ⟨[Output.setevents s.targetSockd "CIRC STREAM ORCONN BW STREAM_BW"
        (w.sendResults w.sendCount)], by simp [Output.isCommand], by simp, fun t => ?_⟩
    rw [manageState_recv_authenticate _ _ h, manageState_recv_authenticate _ _ h,
      manageState_send_setevents _ _ rfl, manageState_send_setevents _ _ rfl]
    by_cases hr : 0 < w.sendResults w.sendCount <;> simp [hr, torControl_setevents]
  · refine ⟨[Output.setevents s.targetSockd "CIRC STREAM ORCONN BW STREAM_BW"
        (w.sendResults w.sendCount)], by simp [Output.isCommand], by simp, fun t => ?_⟩
    rw [manageState_send_setevents _ _ h, manageState_send_setevents _ _ h]
    by_cases hr : 0 < w.sendResults w.sendCount <;> simp [hr, torControl_setevents]
  · refine ⟨[], by simp, by simp, fun t => ?_⟩
    rw [manageState_recv_setevents _ _ h, manageState_recv_setevents _ _ h]
    simp
  · refine ⟨[], by simp, by simp, fun t => ?_⟩
    rw [manageState_idle _ _ h, manageState_idle _ _ h]
    by_cases hn : s.nextState = TCS_IDLE <;> simp [hn]
  · refine ⟨[], by simp, by simp, fun t => ?_⟩
    rw [manageState_unnamed _ _ raw h, manageState_unnamed _ _ raw h]
    simp

theorem commands_append (t u : List Output) : commands (t ++ u) = commands t ++ commands u := by
  simp [commands]

theorem commands_of_isCommand (cmds : List Output) (h : ∀ o ∈ cmds, o.isCommand = true) :
    commands cmds = cmds := by
  simpa [commands] using h

/-! ## Worlds that differ only in their log entries -/

/-- Two runs of the step from worlds with the same oracle, the same number of send
attempts and the same commands return the same result and the same session, and again
agree on oracle, send attempts and commands. -/
theorem manageState_sim (s : TorControlStatistics) (w w' : World)
    (h1 : w.sendResults = w'.sendResults) (h2 : w.sendCount = w'.sendCount)
    (h3 : commands w.trace = commands w'.trace) :
    (_torcontrolstatistics_manageState s w).1 = (_torcontrolstatistics_manageState s w').1 ∧
    (_torcontrolstatistics_manageState s w).2.1 = (_torcontrolstatistics_manageState s w').2.1 ∧
    (_torcontrolstatistics_manageState s w).2.2.sendResults =
      (_torcontrolstatistics_manageState s w').2.2.sendResults ∧
    (_torcontrolstatistics_manageState s w).2.2.sendCount =
      (_torcontrolstatistics_manageState s w').2.2.sendCount ∧
    commands (_torcontrolstatistics_manageState s w).2.2.trace =
      commands (_torcontrolstatistics_manageState s w').2.2.trace := by
  obtain ⟨cmds, -, -, hrun⟩ := manageState_world s w
  have hw : ({ w with trace := w.trace } : World) = w := rfl
  have hw' : ({ w with trace := w'.trace } : World) = w' := by
    cases w; cases w'; simp_all
  have e := hrun w.trace
  have e' := hrun w'.trace
  rw [hw] at e
  rw [hw'] at e'
  have a : (_torcontrolstatistics_manageState s w').1 =
      (_torcontrolstatistics_manageState s w).1 := by rw [e']
  have b : (_torcontrolstatistics_manageState s w').2.1 =
      (_torcontrolstatistics_manageState s w).2.1 := by rw [e']
  have c : (_torcontrolstatistics_manageState s w').2.2 =
      { sendResults := w.sendResults, sendCount := w.sendCount + cmds.length,
        trace := w'.trace ++ cmds } := by rw [e']
  have d : (_torcontrolstatistics_manageState s w).2.2 =
      { sendResults := w.sendResults, sendCount := w.sendCount + cmds.length,
        trace := w.trace ++ cmds } := by rw [e]
  refine ⟨a.symm, b.symm, ?_, ?_, ?_⟩
  · rw [c, d]
  · rw [c, d]
  · rw [c, d]; simp [commands_append, h3]

/-- Every invocation returns: the host never delivers an empty reply. -/
theorem hostCall_total (TORCTL_CODE_TYPE : Int → TorControl_ReplyType) (c : HostCall)
    (x : TorControlStatistics × World) :
    ∃ y, hostCall TORCTL_CODE_TYPE c x = some y := by
  cases c
  case responseEvent first rest =>
    simp only [hostCall, _torcontrolstatistics_handleResponseEvent]
    split <;> exact ⟨_, rfl⟩
  all_goals exact ⟨_, rfl⟩

/-- An event handler returns the session it was given and adds one log entry only. -/
theorem hostCall_event (TORCTL_CODE_TYPE : Int → TorControl_ReplyType) (c : HostCall)
    (s : TorControlStatistics) (w : World) (hc : c.isEvent = true) :
    ∃ w', hostCall TORCTL_CODE_TYPE c (s, w) = some (s, w') ∧
      w'.sendResults = w.sendResults ∧ w'.sendCount = w.sendCount ∧
      commands w'.trace = commands w.trace := by
  cases c <;>
    simp_all [hostCall, HostCall.isEvent, _torcontrolstatistics_handleORConnEvent,
      _torcontrolstatistics_handleCircEvent, _torcontrolstatistics_handleStreamEvent,
      _torcontrolstatistics_handleBWEvent, _torcontrolstatistics_handleExtendedBWEvent,
      _torcontrolstatistics_handleCellStatsEvent, World.callLog, commands, Output.isCommand]

/-- One invocation, run from two worlds that agree on oracle, send attempts and commands,
gives the same session and two worlds that agree again. -/
theorem hostCall_sim (TORCTL_CODE_TYPE : Int → TorControl_ReplyType) (c : HostCall)
    (s : TorControlStatistics) (w w' : World)
    (h1 : w.sendResults = w'.sendResults) (h2 : w.sendCount = w'.sendCount)
    (h3 : commands w.trace = commands w'.trace) :
    ∃ s1 w1 w1', hostCall TORCTL_CODE_TYPE c (s, w) = some (s1, w1) ∧
      hostCall TORCTL_CODE_TYPE c (s, w') = some (s1, w1') ∧
      w1.sendResults = w1'.sendResults ∧ w1.sendCount = w1'.sendCount ∧
      commands w1.trace = commands w1'.trace := by
  by_cases hc : c.isEvent = true
  · obtain ⟨v, hv, a, b, d⟩ := hostCall_event TORCTL_CODE_TYPE c s w hc
    obtain ⟨v', hv', a', b', d'⟩ := hostCall_event TORCTL_CODE_TYPE c s w' hc
    exact ⟨s, v, v', hv, hv', by rw [a, a', h1], by rw [b, b', h2], by rw [d, d', h3]⟩
  · cases c <;> simp [HostCall.isEvent] at hc
    · obtain ⟨-, b, c1, d, e⟩ := manageState_sim s w w' h1 h2 h3
      exact ⟨_, _, _, rfl, by simp only [hostCall]; rw [b], c1, d, e⟩
    · rename_i first rest
      cases hT : TORCTL_CODE_TYPE first.code
      · refine ⟨s, _, _, by simp [hostCall, _torcontrolstatistics_handleResponseEvent, hT]; rfl,
          by simp [hostCall, _torcontrolstatistics_handleResponseEvent, hT]; rfl, ?_, ?_, ?_⟩ <;>
          simp [World.callLog, h1, h2, h3, commands_append]
      · obtain ⟨-, b, c1, d, e⟩ := manageState_sim { s with currentState := s.nextState }
          (w.callLog s.log G_LOG_LEVEL_MESSAGE "_torcontrolstatistics_handleResponseEvent"
            "[%d] SUCCESS: %s" [LogArg.int first.code, LogArg.str first.body])
          (w'.callLog s.log G_LOG_LEVEL_MESSAGE "_torcontrolstatistics_handleResponseEvent"
            "[%d] SUCCESS: %s" [LogArg.int first.code, LogArg.str first.body])
          (by simp [World.callLog, h1]) (by simp [World.callLog, h2])
          (by simp [World.callLog, h3, commands_append])
        refine ⟨_, _, _,
          by simp only [hostCall, _torcontrolstatistics_handleResponseEvent, hT]; rfl,
          by simp only [hostCall, _torcontrolstatistics_handleResponseEvent, hT]; rw [b],
          c1, d, e⟩
      · exact ⟨s, w, w', by simp [hostCall, _torcontrolstatistics_handleResponseEvent, hT],
          by simp [hostCall, _torcontrolstatistics_handleResponseEvent, hT], h1, h2, h3⟩

/-! ## Invocations on a session whose `currentState` is `TCS_IDLE` -/

/-- On a session with `currentState = TCS_IDLE`, an invocation that is not a success-class
reply returns the same session and sends nothing. -/
theorem hostCall_idle_noop (TORCTL_CODE_TYPE : Int → TorControl_ReplyType) (c : HostCall)
    (s : TorControlStatistics) (w : World) (hidle : s.currentState = TCS_IDLE)
    (hc : c.isSuccessReply TORCTL_CODE_TYPE = false) :
    ∃ w', hostCall TORCTL_CODE_TYPE c (s, w) = some (s, w') ∧
      w'.sendResults = w.sendResults ∧ w'.sendCount = w.sendCount ∧
      commands w'.trace = commands w.trace := by
  by_cases he : c.isEvent = true
  · exact hostCall_event TORCTL_CODE_TYPE c s w he
  · cases c <;> simp [HostCall.isEvent] at he
    · refine ⟨w, ?_, rfl, rfl, rfl⟩
      simp only [hostCall, manageState_idle s w hidle]
      split <;> rfl
    · rename_i first rest
      cases hT : TORCTL_CODE_TYPE first.code
      · exact ⟨_, by simp [hostCall, _torcontrolstatistics_handleResponseEvent, hT]; rfl,
          by simp [World.callLog], by simp [World.callLog],
          by simp [World.callLog, commands_append, commands, Output.isCommand]⟩
      · simp [HostCall.isSuccessReply, hT] at hc
      · exact ⟨w, by simp [hostCall, _torcontrolstatistics_handleResponseEvent, hT],
          rfl, rfl, rfl⟩

/-- A success-class reply on a session with `currentState = TCS_IDLE` and
`nextState = TCS_IDLE` returns the same session and sends nothing. -/
theorem hostCall_success_idle (TORCTL_CODE_TYPE : Int → TorControl_ReplyType)
    (first : TorControl_ReplyLine) (rest : List TorControl_ReplyLine)
    (s : TorControlStatistics) (w : World) (hidle : s.currentState = TCS_IDLE)
    (hnext : s.nextState = TCS_IDLE)
    (hT : TORCTL_CODE_TYPE first.code = TORCTL_REPLY_SUCCESS) :
    ∃ w', hostCall TORCTL_CODE_TYPE (HostCall.responseEvent first rest) (s, w) = some (s, w') ∧
      w'.sendResults = w.sendResults ∧ w'.sendCount = w.sendCount ∧
      commands w'.trace = commands w.trace := by
  have hs : ({ s with currentState := s.nextState } : TorControlStatistics) = s := by
    cases s; simp_all
  refine ⟨w.callLog s.log G_LOG_LEVEL_MESSAGE "_torcontrolstatistics_handleResponseEvent"
    "[%d] SUCCESS: %s" [LogArg.int first.code, LogArg.str first.body], ?_,
    by simp [World.callLog], by simp [World.callLog],
    by simp [World.callLog, commands_append, commands, Output.isCommand]⟩
  simp only [hostCall, _torcontrolstatistics_handleResponseEvent, hT]
  rw [hs, manageState_idle s _ hidle]
  simp [hnext]

/-- A success-class reply on a session with `nextState = TCS_RECV_SETEVENTS` completes the
handshake and sends nothing. -/
theorem hostCall_success_recv_setevents (TORCTL_CODE_TYPE : Int → TorControl_ReplyType)
    (first : TorControl_ReplyLine) (rest : List TorControl_ReplyLine)
    (s : TorControlStatistics) (w : World) (hnext : s.nextState = TCS_RECV_SETEVENTS)
    (hT : TORCTL_CODE_TYPE first.code = TORCTL_REPLY_SUCCESS) :
    ∃ w', hostCall TORCTL_CODE_TYPE (HostCall.responseEvent first rest) (s, w) =
        some ({ s with currentState := TCS_IDLE, nextState := TCS_IDLE }, w') ∧
      w'.sendResults = w.sendResults ∧ w'.sendCount = w.sendCount ∧
      commands w'.trace = commands w.trace := by
  refine ⟨w.callLog s.log G_LOG_LEVEL_MESSAGE "_torcontrolstatistics_handleResponseEvent"
    "[%d] SUCCESS: %s" [LogArg.int first.code, LogArg.str first.body], ?_,
    by simp [World.callLog], by simp [World.callLog],
    by simp [World.callLog, commands_append, commands, Output.isCommand]⟩
  simp only [hostCall, _torcontrolstatistics_handleResponseEvent, hT]
  rw [manageState_recv_setevents _ _ hnext]

/-- A success-class reply on a session with `nextState = TCS_RECV_AUTHENTICATE` attempts
to send SETEVENTS, once; the session then waits for the reply when the send succeeded and
stays in `TCS_SEND_SETEVENTS` when it failed. -/
theorem hostCall_success_recv_authenticate (TORCTL_CODE_TYPE : Int → TorControl_ReplyType)
    (first : TorControl_ReplyLine) (rest : List TorControl_ReplyLine)
    (s : TorControlStatistics) (w : World) (hnext : s.nextState = TCS_RECV_AUTHENTICATE)
    (hT : TORCTL_CODE_TYPE first.code = TORCTL_REPLY_SUCCESS) :
    ∃ w', hostCall TORCTL_CODE_TYPE (HostCall.responseEvent first rest) (s, w) =
        some (if 0 < w.sendResults w.sendCount then
            { s with currentState := TCS_IDLE, nextState := TCS_RECV_SETEVENTS }
          else { s with currentState := TCS_SEND_SETEVENTS }, w') ∧
      w'.sendResults = w.sendResults ∧ w'.sendCount = w.sendCount + 1 ∧
      commands w'.trace = commands w.trace ++
        [Output.setevents s.targetSockd "CIRC STREAM ORCONN BW STREAM_BW"
          (w.sendResults w.sendCount)] := by
  refine ⟨{ sendResults := w.sendResults
            sendCount := w.sendCount + 1
            trace := w.trace ++
              [Output.log s.log G_LOG_LEVEL_MESSAGE "_torcontrolstatistics_handleResponseEvent"
                "[%d] SUCCESS: %s" [LogArg.int first.code, LogArg.str first.body],
               Output.setevents s.targetSockd "CIRC STREAM ORCONN BW STREAM_BW"
                (w.sendResults w.sendCount)] }, ?_, rfl, rfl,
    by simp [commands_append, commands, Output.isCommand]⟩
  simp only [hostCall, _torcontrolstatistics_handleResponseEvent, hT]
  rw [manageState_recv_authenticate _ _ hnext, manageState_send_setevents _ _ rfl]
  by_cases hr : 0 < w.sendResults w.sendCount <;>
    simp [hr, torControl_setevents, World.callLog, hnext]

theorem hostCalls_append (TORCTL_CODE_TYPE : Int → TorControl_ReplyType)
    (cs ds : List HostCall) :
    ∀ x, hostCalls TORCTL_CODE_TYPE (cs ++ ds) x =
      (hostCalls TORCTL_CODE_TYPE cs x).bind (hostCalls TORCTL_CODE_TYPE ds) := by
  induction cs with
  | nil => intro x; rfl
  | cons c cs ih =>
    intro x
    simp only [List.cons_append, hostCalls]
    cases hostCall TORCTL_CODE_TYPE c x with
    | none => rfl
    | some y => simpa using ih y

/-! ## The handshake -/

/-- C1: for every session with `currentState = TCS_SEND_AUTHENTICATE` in a world where
nothing has been sent yet and the first two send attempts succeed, the invocations
`initialize`, a success-class reply, a success-class reply end in `currentState = TCS_IDLE`
and `nextState = TCS_IDLE`; the step that the second reply runs (on the committed session,
after the log call) returns `TRUE`; and the outbound command trace is exactly
`AUTHENTICATE "password"` followed by `SETEVENTS CIRC STREAM ORCONN BW STREAM_BW`. -/
theorem full_handshake (TORCTL_CODE_TYPE : Int → TorControl_ReplyType)
    (s : TorControlStatistics) (sendResults : Nat → Int)
    (first1 first2 : TorControl_ReplyLine) (rest1 rest2 : List TorControl_ReplyLine)
    (hnew : s.currentState = TCS_SEND_AUTHENTICATE)
    (hsend0 : 0 < sendResults 0) (hsend1 : 0 < sendResults 1)
    (hsucc1 : TORCTL_CODE_TYPE first1.code = TORCTL_REPLY_SUCCESS)
    (hsucc2 : TORCTL_CODE_TYPE first2.code = TORCTL_REPLY_SUCCESS) :
    ∃ s2 w2 sF wF,
      hostCalls TORCTL_CODE_TYPE [HostCall.init, HostCall.responseEvent first1 rest1]
        (s, World.fresh sendResults) = some (s2, w2) ∧
      _torcontrolstatistics_manageState { s2 with currentState := s2.nextState }
        (w2.callLog s2.log G_LOG_LEVEL_MESSAGE "_torcontrolstatistics_handleResponseEvent"
          "[%d] SUCCESS: %s" [LogArg.int first2.code, LogArg.str first2.body]) =
        (true, sF, wF) ∧
      hostCalls TORCTL_CODE_TYPE
        [HostCall.init, HostCall.responseEvent first1 rest1, HostCall.responseEvent first2 rest2]
        (s, World.fresh sendResults) = some (sF, wF) ∧
      sF.currentState = TCS_IDLE ∧ sF.nextState = TCS_IDLE ∧
      commands wF.trace =
        [Output.authenticate s.targetSockd "password" (sendResults 0),
         Output.setevents s.targetSockd "CIRC STREAM ORCONN BW STREAM_BW" (sendResults 1)] := by
  refine ⟨{ s with currentState := TCS_IDLE, nextState := TCS_RECV_SETEVENTS },
    { sendResults := sendResults, sendCount := 2,
      trace := [Output.authenticate s.targetSockd "password" (sendResults 0),
        Output.log s.log G_LOG_LEVEL_MESSAGE "_torcontrolstatistics_handleResponseEvent"
          "[%d] SUCCESS: %s" [LogArg.int first1.code, LogArg.str first1.body],
        Output.setevents s.targetSockd "CIRC STREAM ORCONN BW STREAM_BW" (sendResults 1)] },
    { s with currentState := TCS_IDLE, nextState := TCS_IDLE },
    { sendResults := sendResults, sendCount := 2,
      trace := [Output.authenticate s.targetSockd "password" (sendResults 0),
        Output.log s.log G_LOG_LEVEL_MESSAGE "_torcontrolstatistics_handleResponseEvent"
          "[%d] SUCCESS: %s" [LogArg.int first1.code, LogArg.str first1.body],
        Output.setevents s.targetSockd "CIRC STREAM ORCONN BW STREAM_BW" (sendResults 1),
        Output.log s.log G_LOG_LEVEL_MESSAGE "_torcontrolstatistics_handleResponseEvent"
          "[%d] SUCCESS: %s" [LogArg.int first2.code, LogArg.str first2.body]] }, ?_⟩
  simp [hostCalls, hostCall, _torcontrolstatistics_handleResponseEvent, hsucc1, hsucc2,
    manageState_send_authenticate _ _ hnew, World.fresh, hsend0, hsend1,
    torControl_authenticate, torControl_setevents, World.callLog,
    manageState_recv_authenticate, manageState_send_setevents, manageState_recv_setevents,
    commands, Output.isCommand]

/-- Witness of C1: the sample session, every send succeeding, two 250 replies. -/
theorem full_handshake_witness :
    sampleSession.currentState = TCS_SEND_AUTHENTICATE ∧
    0 < allSendsSucceed 0 ∧ 0 < allSendsSucceed 1 ∧
    hundredsCodeType (250 : Int) = TORCTL_REPLY_SUCCESS ∧
    ∃ s2 w2 sF wF,
      hostCalls hundredsCodeType
        [HostCall.init, HostCall.responseEvent { code := 250, body := "OK" } []]
        (sampleSession, World.fresh allSendsSucceed) = some (s2, w2) ∧
      _torcontrolstatistics_manageState { s2 with currentState := s2.nextState }
        (w2.callLog s2.log G_LOG_LEVEL_MESSAGE "_torcontrolstatistics_handleResponseEvent"
          "[%d] SUCCESS: %s" [LogArg.int 250, LogArg.str "OK"]) =
        (true, sF, wF) ∧
      hostCalls hundredsCodeType
        [HostCall.init, HostCall.responseEvent { code := 250, body := "OK" } [],
         HostCall.responseEvent { code := 250, body := "OK" } []]
        (sampleSession, World.fresh allSendsSucceed) = some (sF, wF) ∧
      sF.currentState = TCS_IDLE ∧ sF.nextState = TCS_IDLE ∧
      commands wF.trace =
        [Output.authenticate sampleSession.targetSockd "password" (allSendsSucceed 0),
         Output.setevents sampleSession.targetSockd "CIRC STREAM ORCONN BW STREAM_BW"
           (allSendsSucceed 1)] :=
  ⟨rfl, by decide, by decide, by decide,
   full_handshake hundredsCodeType sampleSession allSendsSucceed
     { code := 250, body := "OK" } { code := 250, body := "OK" } [] []
     rfl (by decide) (by decide) (by decide) (by decide)⟩

/-! ## Replies -/

/-- C2: for every session, every world and every reply list with a first line of the
error class, the reply handler returns the session unchanged (hence `currentState` and
`nextState` unchanged), makes no send attempt, and appends exactly one entry to the
trace: one log call at critical severity with the first line's code and body. -/
theorem error_reply_single_step (TORCTL_CODE_TYPE : Int → TorControl_ReplyType)
    (s : TorControlStatistics) (w : World) (line : TorControl_ReplyLine)
    (rest : List TorControl_ReplyLine)
    (herr : TORCTL_CODE_TYPE line.code = TORCTL_REPLY_ERROR) :
    _torcontrolstatistics_handleResponseEvent TORCTL_CODE_TYPE s (line :: rest) w =
      some (s,
        { sendResults := w.sendResults
          sendCount := w.sendCount
          trace := w.trace ++
            [Output.log s.log G_LOG_LEVEL_CRITICAL "_torcontrolstatistics_handleResponseEvent"
              "[%d] ERROR: %s" [LogArg.int line.code, LogArg.str line.body]] }) := by
  simp [_torcontrolstatistics_handleResponseEvent, herr, World.callLog]

/-- Witness of C2: a 515 reply delivered to the sample session while it waits for the
reply to AUTHENTICATE. -/
theorem error_reply_single_step_witness :
    hundredsCodeType (515 : Int) = TORCTL_REPLY_ERROR ∧
    _torcontrolstatistics_handleResponseEvent hundredsCodeType sampleAwaitingAuthenticate
        [{ code := 515, body := "Authentication failed" }, { code := 250, body := "OK" }]
        (World.fresh allSendsSucceed) =
      some (sampleAwaitingAuthenticate,
        { sendResults := (World.fresh allSendsSucceed).sendResults
          sendCount := (World.fresh allSendsSucceed).sendCount
          trace := (World.fresh allSendsSucceed).trace ++
            [Output.log sampleAwaitingAuthenticate.log G_LOG_LEVEL_CRITICAL
              "_torcontrolstatistics_handleResponseEvent" "[%d] ERROR: %s"
              [LogArg.int 515, LogArg.str "Authentication failed"]] }) :=
  ⟨by decide,
   error_reply_single_step hundredsCodeType sampleAwaitingAuthenticate
     (World.fresh allSendsSucceed) { code := 515, body := "Authentication failed" }
     [{ code := 250, body := "OK" }] (by decide)⟩

/-- C4: for every session, every world and every reply list whose first line is neither of
the success class nor of the error class, the reply handler returns the session and the
world unchanged: no log call, no send attempt, `currentState` and `nextState` as before. -/
theorem unrecognized_reply_ignored (TORCTL_CODE_TYPE : Int → TorControl_ReplyType)
    (s : TorControlStatistics) (w : World) (line : TorControl_ReplyLine)
    (rest : List TorControl_ReplyLine)
    (hnotsuccess : TORCTL_CODE_TYPE line.code ≠ TORCTL_REPLY_SUCCESS)
    (hnoterror : TORCTL_CODE_TYPE line.code ≠ TORCTL_REPLY_ERROR) :
    _torcontrolstatistics_handleResponseEvent TORCTL_CODE_TYPE s (line :: rest) w =
      some (s, w) := by
  cases hc : TORCTL_CODE_TYPE line.code
  · exact absurd hc hnoterror
  · exact absurd hc hnotsuccess
  · simp [_torcontrolstatistics_handleResponseEvent, hc]

/-- Witness of C4: a 650 line delivered as a reply to the sample session while it waits
for the reply to AUTHENTICATE. -/
theorem unrecognized_reply_ignored_witness :
    hundredsCodeType (650 : Int) ≠ TORCTL_REPLY_SUCCESS ∧
    hundredsCodeType (650 : Int) ≠ TORCTL_REPLY_ERROR ∧
    _torcontrolstatistics_handleResponseEvent hundredsCodeType sampleAwaitingAuthenticate
        [{ code := 650, body := "BW 10 20" }] (World.fresh allSendsSucceed) =
      some (sampleAwaitingAuthenticate, World.fresh allSendsSucceed) :=
  ⟨by decide, by decide,
   unrecognized_reply_ignored hundredsCodeType sampleAwaitingAuthenticate
     (World.fresh allSendsSucceed) { code := 650, body := "BW 10 20" } []
     (by decide) (by decide)⟩

/-- C5: for every session `s`, every world and every reply list with a first line of the
success class, the reply handler appends to the trace exactly one log call at
informational severity with the first line's code and body, followed by `cmds`; `cmds`
holds only commands and is exactly what the step appends when it is run on `s` with
`currentState` replaced by `s.nextState`; the resulting session and the number of send
attempts are those of that step. -/
theorem success_reply_commits_and_steps (TORCTL_CODE_TYPE : Int → TorControl_ReplyType)
    (s : TorControlStatistics) (w : World) (line : TorControl_ReplyLine)
    (rest : List TorControl_ReplyLine)
    (hsucc : TORCTL_CODE_TYPE line.code = TORCTL_REPLY_SUCCESS) :
    ∃ cmds : List Output, (∀ o ∈ cmds, o.isCommand = true) ∧
      (_torcontrolstatistics_manageState { s with currentState := s.nextState } w).2.2.trace =
        w.trace ++ cmds ∧
      _torcontrolstatistics_handleResponseEvent TORCTL_CODE_TYPE s (line :: rest) w =
        some ((_torcontrolstatistics_manageState { s with currentState := s.nextState } w).2.1,
          { sendResults := w.sendResults
            sendCount :=
              (_torcontrolstatistics_manageState
                { s with currentState := s.nextState } w).2.2.sendCount
            trace := w.trace ++
              Output.log s.log G_LOG_LEVEL_MESSAGE "_torcontrolstatistics_handleResponseEvent"
                "[%d] SUCCESS: %s" [LogArg.int line.code, LogArg.str line.body] :: cmds }) := by
  obtain ⟨cmds, hcmds, -, hrun⟩ :=
    manageState_world { s with currentState := s.nextState } w
  refine ⟨cmds, hcmds, ?_, ?_⟩
  · have h := hrun w.trace
    have hw : ({ w with trace := w.trace } : World) = w := rfl
    rw [hw] at h
    rw [h]
  · have h := hrun w.trace
    have hw : ({ w with trace := w.trace } : World) = w := rfl
    rw [hw] at h
    have h1 := hrun (w.trace ++
      [Output.log s.log G_LOG_LEVEL_MESSAGE "_torcontrolstatistics_handleResponseEvent"
        "[%d] SUCCESS: %s" [LogArg.int line.code, LogArg.str line.body]])
    simp only [_torcontrolstatistics_handleResponseEvent, hsucc, World.callLog]
    rw [h1]
    conv_rhs => rw [h]
    simp

/-- Witness of C5: a 250 reply to AUTHENTICATE on the sample session, which makes the step
send SETEVENTS. -/
theorem success_reply_commits_and_steps_witness :
    hundredsCodeType (250 : Int) = TORCTL_REPLY_SUCCESS ∧
    ∃ cmds : List Output, (∀ o ∈ cmds, o.isCommand = true) ∧
      (_torcontrolstatistics_manageState
        { sampleAwaitingAuthenticate with
          currentState := sampleAwaitingAuthenticate.nextState }
        (World.fresh allSendsSucceed)).2.2.trace =
        (World.fresh allSendsSucceed).trace ++ cmds ∧
      _torcontrolstatistics_handleResponseEvent hundredsCodeType sampleAwaitingAuthenticate
          [{ code := 250, body := "OK" }] (World.fresh allSendsSucceed) =
        some ((_torcontrolstatistics_manageState
            { sampleAwaitingAuthenticate with
              currentState := sampleAwaitingAuthenticate.nextState }
            (World.fresh allSendsSucceed)).2.1,
          { sendResults := (World.fresh allSendsSucceed).sendResults
            sendCount :=
              (_torcontrolstatistics_manageState
                { sampleAwaitingAuthenticate with
                  currentState := sampleAwaitingAuthenticate.nextState }
                (World.fresh allSendsSucceed)).2.2.sendCount
            trace := (World.fresh allSendsSucceed).trace ++
              Output.log sampleAwaitingAuthenticate.log G_LOG_LEVEL_MESSAGE
                "_torcontrolstatistics_handleResponseEvent" "[%d] SUCCESS: %s"
                [LogArg.int 250, LogArg.str "OK"] :: cmds }) :=
  ⟨by decide,
   success_reply_commits_and_steps hundredsCodeType sampleAwaitingAuthenticate
     (World.fresh allSendsSucceed) { code := 250, body := "OK" } [] (by decide)⟩

/-! ## Error replies -/

/-- From a session that waits for a reply, or has completed, with every remaining send
succeeding where one can still happen, `currentState` is `TCS_IDLE` after every sequence
of invocations. -/
theorem hostCalls_stay_idle (TORCTL_CODE_TYPE : Int → TorControl_ReplyType)
    (cs : List HostCall) :
    ∀ (s : TorControlStatistics) (w : World), s.currentState = TCS_IDLE →
      (s.nextState = TCS_IDLE ∨ s.nextState = TCS_RECV_SETEVENTS ∨
        (s.nextState = TCS_RECV_AUTHENTICATE ∧ ∀ k, w.sendCount ≤ k → 0 < w.sendResults k)) →
      ∃ sF wF, hostCalls TORCTL_CODE_TYPE cs (s, w) = some (sF, wF) ∧
        sF.currentState = TCS_IDLE := by
  induction cs with
  | nil => intro s w hcur _; exact ⟨s, w, rfl, hcur⟩
  | cons c cs ih =>
    intro s w hcur hnext
    cases hc : c.isSuccessReply TORCTL_CODE_TYPE
    · obtain ⟨v, hv, a, b, -⟩ := hostCall_idle_noop TORCTL_CODE_TYPE c s w hcur hc
      obtain ⟨sF, wF, hF, hidle⟩ := ih s v hcur (by rw [a, b]; exact hnext)
      exact ⟨sF, wF, by simp [hostCalls, hv, hF], hidle⟩
    · cases c <;> simp [HostCall.isSuccessReply] at hc
      rename_i first rest
      rcases hnext with hn | hn | ⟨hn, hsend⟩
      · obtain ⟨v, hv, -, -, -⟩ :=
          hostCall_success_idle TORCTL_CODE_TYPE first rest s w hcur hn hc
        obtain ⟨sF, wF, hF, hidle⟩ := ih s v hcur (Or.inl hn)
        exact ⟨sF, wF, by simp [hostCalls, hv, hF], hidle⟩
      · obtain ⟨v, hv, -, -, -⟩ :=
          hostCall_success_recv_setevents TORCTL_CODE_TYPE first rest s w hn hc
        obtain ⟨sF, wF, hF, hidle⟩ :=
          ih { s with currentState := TCS_IDLE, nextState := TCS_IDLE } v rfl (Or.inl rfl)
        exact ⟨sF, wF, by simp [hostCalls, hv, hF], hidle⟩
      · obtain ⟨v, hv, -, -, -⟩ :=
          hostCall_success_recv_authenticate TORCTL_CODE_TYPE first rest s w hn hc
        rw [if_pos (hsend _ (le_refl _))] at hv
        obtain ⟨sF, wF, hF, hidle⟩ :=
          ih { s with currentState := TCS_IDLE, nextState := TCS_RECV_SETEVENTS } v rfl
            (Or.inr (Or.inl rfl))
        exact ⟨sF, wF, by simp [hostCalls, hv, hF], hidle⟩

/-- C3, counterexample: AUTHENTICATE is sent, an error-class reply (515) is delivered, then
a success-class reply (250) is delivered and the SETEVENTS send it triggers fails:
`currentState` is then `TCS_SEND_SETEVENTS`, not the value `TCS_IDLE` it had at the moment
of the error reply. -/
theorem error_reply_permanence_counterexample :
    ∃ s1 w1 s2 w2 s3 w3,
      hostCall hundredsCodeType HostCall.init
        (sampleSession, World.fresh onlyFirstSendSucceeds) = some (s1, w1) ∧
      commands w1.trace = [Output.authenticate 3 "password" 1] ∧
      hostCall hundredsCodeType
        (HostCall.responseEvent { code := 515, body := "Authentication failed" } [])
        (s1, w1) = some (s2, w2) ∧
      s2.currentState = TCS_IDLE ∧
      hostCalls hundredsCodeType [HostCall.responseEvent { code := 250, body := "OK" } []]
        (s2, w2) = some (s3, w3) ∧
      s3.currentState = TCS_SEND_SETEVENTS ∧
      s3.currentState ≠ s2.currentState := by
  have h515 : hundredsCodeType 515 = TORCTL_REPLY_ERROR := by decide
  have h250 : hundredsCodeType 250 = TORCTL_REPLY_SUCCESS := by decide
  refine ⟨sampleAwaitingAuthenticate,
    { sendResults := onlyFirstSendSucceeds, sendCount := 1,
      trace := [Output.authenticate 3 "password" 1] },
    sampleAwaitingAuthenticate,
    { sendResults := onlyFirstSendSucceeds, sendCount := 1,
      trace := [Output.authenticate 3 "password" 1,
        Output.log 7 G_LOG_LEVEL_CRITICAL "_torcontrolstatistics_handleResponseEvent"
          "[%d] ERROR: %s" [LogArg.int 515, LogArg.str "Authentication failed"]] },
    { sampleAwaitingAuthenticate with currentState := TCS_SEND_SETEVENTS },
    { sendResults := onlyFirstSendSucceeds, sendCount := 2,
      trace := [Output.authenticate 3 "password" 1,
        Output.log 7 G_LOG_LEVEL_CRITICAL "_torcontrolstatistics_handleResponseEvent"
          "[%d] ERROR: %s" [LogArg.int 515, LogArg.str "Authentication failed"],
        Output.log 7 G_LOG_LEVEL_MESSAGE "_torcontrolstatistics_handleResponseEvent"
          "[%d] SUCCESS: %s" [LogArg.int 250, LogArg.str "OK"],
        Output.setevents 3 "CIRC STREAM ORCONN BW STREAM_BW" 0] },
    ?_, by decide, ?_, by decide, ?_, by decide, by decide⟩
  · simp only [hostCall]
    rw [manageState_send_authenticate _ _ rfl]
    simp [World.fresh, onlyFirstSendSucceeds, sampleSession, sampleAwaitingAuthenticate,
      torcontrolstatistics_new, torControl_authenticate]
  · simp [hostCall, _torcontrolstatistics_handleResponseEvent, h515, World.callLog,
      sampleAwaitingAuthenticate, sampleSession, torcontrolstatistics_new]
  · simp only [hostCalls, hostCall, _torcontrolstatistics_handleResponseEvent, h250]
    rw [manageState_recv_authenticate _ _ rfl, manageState_send_setevents _ _ rfl]
    simp [World.callLog, onlyFirstSendSucceeds, sampleSession, sampleAwaitingAuthenticate,
      torcontrolstatistics_new, torControl_setevents]

/-- C3, amended: let an error-class reply be delivered to a session that waits for the
reply to AUTHENTICATE (`currentState = TCS_IDLE`, `nextState = TCS_RECV_AUTHENTICATE`) or to
SETEVENTS (`currentState = TCS_IDLE`, `nextState = TCS_RECV_SETEVENTS`).  The reply leaves
`currentState` as it was, and after every later sequence of invocations (`initialize`,
events, replies of any class) `currentState` still has that value, provided, in the
AUTHENTICATE case, that every later send attempt succeeds. -/
theorem error_reply_permanence (TORCTL_CODE_TYPE : Int → TorControl_ReplyType)
    (s : TorControlStatistics) (w : World) (line : TorControl_ReplyLine)
    (rest : List TorControl_ReplyLine) (cs : List HostCall)
    (hcur : s.currentState = TCS_IDLE)
    (hwait : s.nextState = TCS_RECV_SETEVENTS ∨
      (s.nextState = TCS_RECV_AUTHENTICATE ∧ ∀ k, w.sendCount ≤ k → 0 < w.sendResults k))
    (herr : TORCTL_CODE_TYPE line.code = TORCTL_REPLY_ERROR) :
    ∃ s1 w1 sF wF,
      hostCall TORCTL_CODE_TYPE (HostCall.responseEvent line rest) (s, w) = some (s1, w1) ∧
      s1.currentState = s.currentState ∧
      hostCalls TORCTL_CODE_TYPE cs (s1, w1) = some (sF, wF) ∧
      sF.currentState = s1.currentState := by
  have hc : (HostCall.responseEvent line rest).isSuccessReply TORCTL_CODE_TYPE = false := by
    simp [HostCall.isSuccessReply, herr]
  obtain ⟨v, hv, a, b, -⟩ := hostCall_idle_noop TORCTL_CODE_TYPE _ s w hcur hc
  obtain ⟨sF, wF, hF, hidle⟩ := hostCalls_stay_idle TORCTL_CODE_TYPE cs s v hcur
    (by rw [a, b]; exact Or.inr hwait)
  exact ⟨s, v, sF, wF, hv, rfl, hF, by rw [hidle, hcur]⟩

/-- Witness of C3, amended: an error reply to AUTHENTICATE, then a success reply, an event
and a second success reply, every send succeeding. -/
theorem error_reply_permanence_witness :
    sampleAwaitingAuthenticate.currentState = TCS_IDLE ∧
    (sampleAwaitingAuthenticate.nextState = TCS_RECV_SETEVENTS ∨
      (sampleAwaitingAuthenticate.nextState = TCS_RECV_AUTHENTICATE ∧
        ∀ k, (World.fresh allSendsSucceed).sendCount ≤ k →
          0 < (World.fresh allSendsSucceed).sendResults k)) ∧
    hundredsCodeType (515 : Int) = TORCTL_REPLY_ERROR ∧
    ∃ s1 w1 sF wF,
      hostCall hundredsCodeType
        (HostCall.responseEvent { code := 515, body := "Authentication failed" } [])
        (sampleAwaitingAuthenticate, World.fresh allSendsSucceed) = some (s1, w1) ∧
      s1.currentState = sampleAwaitingAuthenticate.currentState ∧
      hostCalls hundredsCodeType
        [HostCall.responseEvent { code := 250, body := "OK" } [],
         HostCall.bwEvent 650 "650 BW 10 20" 10 20,
         HostCall.responseEvent { code := 250, body := "OK" } []]
        (s1, w1) = some (sF, wF) ∧
      sF.currentState = s1.currentState :=
  ⟨rfl, Or.inr ⟨rfl, fun _ _ => by show (0 : Int) < 1; decide⟩, by decide,
   error_reply_permanence hundredsCodeType sampleAwaitingAuthenticate
     (World.fresh allSendsSucceed) { code := 515, body := "Authentication failed" } []
     [HostCall.responseEvent { code := 250, body := "OK" } [],
      HostCall.bwEvent 650 "650 BW 10 20" 10 20,
      HostCall.responseEvent { code := 250, body := "OK" } []]
     rfl (Or.inr ⟨rfl, fun _ _ => by show (0 : Int) < 1; decide⟩) (by decide)⟩

/-! ## Events -/

theorem toString_natCast (n : Nat) : toString (n : Int) = toString n := rfl

/-- C6: each of the six event handlers, for every session, world, payload and raw line,
returns the session unchanged and performs exactly one log call, at informational
severity, with format `%s:%i %s` and the arguments hostname, port, raw line; that call
renders as the hostname, a colon, the port in decimal, a space and the raw line.  Neither
the call nor its rendering mentions a payload field, `currentState` or `nextState`. -/
theorem event_formatting (s : TorControlStatistics) (w : World) (line : String) :
    (∀ code connID target status reason numCircuits,
      _torcontrolstatistics_handleORConnEvent s code line connID target status reason
        numCircuits w =
      (s, { w with trace := w.trace ++
        [Output.log s.log G_LOG_LEVEL_MESSAGE "_torcontrolstatistics_handleORConnEvent"
          "%s:%i %s"
          [LogArg.str s.targetHostname, LogArg.int s.targetPort, LogArg.str line]] })) ∧
    (∀ code circID path status buildFlags purpose reason createTime,
      _torcontrolstatistics_handleCircEvent s code line circID path status buildFlags
        purpose reason createTime w =
      (s, { w with trace := w.trace ++
        [Output.log s.log G_LOG_LEVEL_MESSAGE "_torcontrolstatistics_handleCircEvent"
          "%s:%i %s"
          [LogArg.str s.targetHostname, LogArg.int s.targetPort, LogArg.str line]] })) ∧
    (∀ code streamID circID targetIP targetPort status reason remoteReason source sourceIP
        sourcePort purpose,
      _torcontrolstatistics_handleStreamEvent s code line streamID circID targetIP targetPort
        status reason remoteReason source sourceIP sourcePort purpose w =
      (s, { w with trace := w.trace ++
        [Output.log s.log G_LOG_LEVEL_MESSAGE "_torcontrolstatistics_handleStreamEvent"
          "%s:%i %s"
          [LogArg.str s.targetHostname, LogArg.int s.targetPort, LogArg.str line]] })) ∧
    (∀ code bytesRead bytesWritten,
      _torcontrolstatistics_handleBWEvent s code line bytesRead bytesWritten w =
      (s, { w with trace := w.trace ++
        [Output.log s.log G_LOG_LEVEL_MESSAGE "_torcontrolstatistics_handleBWEvent"
          "%s:%i %s"
          [LogArg.str s.targetHostname, LogArg.int s.targetPort, LogArg.str line]] })) ∧
    (∀ code type id bytesRead bytesWritten,
      _torcontrolstatistics_handleExtendedBWEvent s code line type id bytesRead
        bytesWritten w =
      (s, { w with trace := w.trace ++
        [Output.log s.log G_LOG_LEVEL_MESSAGE "_torcontrolstatistics_handleExtendedBWEvent"
          "%s:%i %s"
          [LogArg.str s.targetHostname, LogArg.int s.targetPort, LogArg.str line]] })) ∧
    (∀ code circID nextHopCircID prevHopCircID appProcessed appTotalWaitMillis
        appMeanQueueLength exitProcessed exitTotalWaitMillis exitMeanQueueLength,
      _torcontrolstatistics_handleCellStatsEvent s code line circID nextHopCircID
        prevHopCircID appProcessed appTotalWaitMillis appMeanQueueLength exitProcessed
        exitTotalWaitMillis exitMeanQueueLength w =
      (s, { w with trace := w.trace ++
        [Output.log s.log G_LOG_LEVEL_MESSAGE "_torcontrolstatistics_handleCellStatsEvent"
          "%s:%i %s"
          [LogArg.str s.targetHostname, LogArg.int s.targetPort, LogArg.str line]] })) ∧
    renderMessage "%s:%i %s"
        [LogArg.str s.targetHostname, LogArg.int s.targetPort, LogArg.str line] =
      s.targetHostname ++ ":" ++ toString s.targetPort ++ " " ++ line := by
  refine ⟨?_, ?_, ?_, ?_, ?_, ?_, ?_⟩
  · intros; rfl
  · intros; rfl
  · intros; rfl
  · intros; rfl
  · intros; rfl
  · intros; rfl
  · apply String.ext
    simp [renderMessage, formatChars, toString_natCast]

/-- The record of a run without its events is the record of the run of the sequence
without its events, also when the two runs start from worlds that differ in their log
entries only. -/
theorem history_sim (TORCTL_CODE_TYPE : Int → TorControl_ReplyType) (cs : List HostCall) :
    ∀ (s : TorControlStatistics) (w w' : World),
      w.sendResults = w'.sendResults → w.sendCount = w'.sendCount →
      commands w.trace = commands w'.trace →
      (history TORCTL_CODE_TYPE cs (s, w)).filter (fun e => !e.1.isEvent) =
        history TORCTL_CODE_TYPE (cs.filter (fun c => !c.isEvent)) (s, w') := by
  induction cs with
  | nil => intro s w w' _ _ _; simp [history]
  | cons c cs ih =>
    intro s w w' h1 h2 h3
    by_cases hc : c.isEvent = true
    · obtain ⟨v, hv, a, b, d⟩ := hostCall_event TORCTL_CODE_TYPE c s w hc
      simp only [history, hv, List.filter_cons, hc, Bool.not_true, Bool.false_eq_true,
        if_false]
      exact ih s v w' (by rw [a, h1]) (by rw [b, h2]) (by rw [d, h3])
    · obtain ⟨s1, w1, w1', e, e', a, b, d⟩ := hostCall_sim TORCTL_CODE_TYPE c s w w' h1 h2 h3
      simp only [Bool.not_eq_true] at hc
      simp only [history, e, e', List.filter_cons, hc, Bool.not_false, if_true]
      rw [ih s1 w1 w1' a b d, d]

/-- The final session of a run and the final commands do not depend on the events in
it. -/
theorem hostCalls_sim (TORCTL_CODE_TYPE : Int → TorControl_ReplyType) (cs : List HostCall) :
    ∀ (s : TorControlStatistics) (w w' : World),
      w.sendResults = w'.sendResults → w.sendCount = w'.sendCount →
      commands w.trace = commands w'.trace →
      ∃ sF wF wF', hostCalls TORCTL_CODE_TYPE cs (s, w) = some (sF, wF) ∧
        hostCalls TORCTL_CODE_TYPE (cs.filter (fun c => !c.isEvent)) (s, w') = some (sF, wF') ∧
        wF.sendResults = wF'.sendResults ∧ wF.sendCount = wF'.sendCount ∧
        commands wF.trace = commands wF'.trace := by
  induction cs with
  | nil => intro s w w' h1 h2 h3; exact ⟨s, w, w', rfl, rfl, h1, h2, h3⟩
  | cons c cs ih =>
    intro s w w' h1 h2 h3
    by_cases hc : c.isEvent = true
    · obtain ⟨v, hv, a, b, d⟩ := hostCall_event TORCTL_CODE_TYPE c s w hc
      simp only [hostCalls, hv, List.filter_cons, hc, Bool.not_true, Bool.false_eq_true,
        if_false, Option.some_bind]
      exact ih s v w' (by rw [a, h1]) (by rw [b, h2]) (by rw [d, h3])
    · obtain ⟨s1, w1, w1', e, e', a, b, d⟩ := hostCall_sim TORCTL_CODE_TYPE c s w w' h1 h2 h3
      simp only [Bool.not_eq_true] at hc
      simp only [hostCalls, e, e', List.filter_cons, hc, Bool.not_false, if_true,
        Option.some_bind]
      exact ih s1 w1 w1' a b d

/-- C7: every event handler invocation, from every session and world, returns the same
session (all fields, `currentState` and `nextState` included), makes no send attempt and
leaves the commands sent as they were; and for every sequence of invocations, the record
of sessions and outbound commands after each invocation that is not an event, and the
final session, commands and number of send attempts, are those of the sequence with all
event invocations removed. -/
theorem events_do_not_touch_state (TORCTL_CODE_TYPE : Int → TorControl_ReplyType)
    (s : TorControlStatistics) (w : World) :
    (∀ c : HostCall, c.isEvent = true →
      ∃ w', hostCall TORCTL_CODE_TYPE c (s, w) = some (s, w') ∧
        w'.sendCount = w.sendCount ∧ commands w'.trace = commands w.trace) ∧
    (∀ cs : List HostCall,
      (history TORCTL_CODE_TYPE cs (s, w)).filter (fun e => !e.1.isEvent) =
        history TORCTL_CODE_TYPE (cs.filter (fun c => !c.isEvent)) (s, w) ∧
      ∃ sF wF wF', hostCalls TORCTL_CODE_TYPE cs (s, w) = some (sF, wF) ∧
        hostCalls TORCTL_CODE_TYPE (cs.filter (fun c => !c.isEvent)) (s, w) = some (sF, wF') ∧
        wF.sendCount = wF'.sendCount ∧ commands wF.trace = commands wF'.trace) := by
  refine ⟨fun c hc => ?_, fun cs => ⟨history_sim TORCTL_CODE_TYPE cs s w w rfl rfl rfl, ?_⟩⟩
  · obtain ⟨v, hv, -, b, d⟩ := hostCall_event TORCTL_CODE_TYPE c s w hc
    exact ⟨v, hv, b, d⟩
  · obtain ⟨sF, wF, wF', e, e', -, b, d⟩ := hostCalls_sim TORCTL_CODE_TYPE cs s w w rfl rfl rfl
    exact ⟨sF, wF, wF', e, e', b, d⟩

/-- Witness of C7: a bandwidth event delivered while the sample session waits for the
reply to AUTHENTICATE. -/
theorem events_do_not_touch_state_witness :
    (HostCall.bwEvent 650 "650 BW 10 20" 10 20).isEvent = true ∧
    ∃ w', hostCall hundredsCodeType (HostCall.bwEvent 650 "650 BW 10 20" 10 20)
        (sampleAwaitingAuthenticate, World.fresh allSendsSucceed) =
        some (sampleAwaitingAuthenticate, w') ∧
      w'.sendCount = (World.fresh allSendsSucceed).sendCount ∧
      commands w'.trace = commands (World.fresh allSendsSucceed).trace :=
  ⟨rfl,
   (events_do_not_touch_state hundredsCodeType sampleAwaitingAuthenticate
     (World.fresh allSendsSucceed)).1 (HostCall.bwEvent 650 "650 BW 10 20" 10 20) rfl⟩

/-! ## The completed handshake -/

/-- C9: on a session with `currentState = TCS_IDLE` and `nextState = TCS_IDLE`, the step
(the `initialize` entry) returns `TRUE` and leaves the session and the world unchanged
(no command, no log call); and every invocation (`initialize`, a reply of any class, any
event) returns the same session, makes no send attempt and sends no command. -/
theorem completed_state_absorbing (TORCTL_CODE_TYPE : Int → TorControl_ReplyType)
    (s : TorControlStatistics) (w : World)
    (hcur : s.currentState = TCS_IDLE) (hnext : s.nextState = TCS_IDLE) :
    _torcontrolstatistics_manageState s w = (true, s, w) ∧
    ∀ c : HostCall, ∃ w', hostCall TORCTL_CODE_TYPE c (s, w) = some (s, w') ∧
      w'.sendCount = w.sendCount ∧ commands w'.trace = commands w.trace := by
  refine ⟨by rw [manageState_idle s w hcur]; simp [hnext], fun c => ?_⟩
  cases hc : c.isSuccessReply TORCTL_CODE_TYPE
  · obtain ⟨v, hv, -, b, d⟩ := hostCall_idle_noop TORCTL_CODE_TYPE c s w hcur hc
    exact ⟨v, hv, b, d⟩
  · cases c <;> simp [HostCall.isSuccessReply] at hc
    rename_i first rest
    obtain ⟨v, hv, -, b, d⟩ :=
      hostCall_success_idle TORCTL_CODE_TYPE first rest s w hcur hnext hc
    exact ⟨v, hv, b, d⟩

/-- Witness of C9: the sample session after its handshake. -/
theorem completed_state_absorbing_witness :
    ({ sampleSession with currentState := TCS_IDLE, nextState := TCS_IDLE } :
        TorControlStatistics).currentState = TCS_IDLE ∧
    ({ sampleSession with currentState := TCS_IDLE, nextState := TCS_IDLE } :
        TorControlStatistics).nextState = TCS_IDLE ∧
    _torcontrolstatistics_manageState
        { sampleSession with currentState := TCS_IDLE, nextState := TCS_IDLE }
        (World.fresh allSendsSucceed) =
      (true, { sampleSession with currentState := TCS_IDLE, nextState := TCS_IDLE },
        World.fresh allSendsSucceed) ∧
    ∀ c : HostCall, ∃ w', hostCall hundredsCodeType c
        ({ sampleSession with currentState := TCS_IDLE, nextState := TCS_IDLE },
          World.fresh allSendsSucceed) =
        some ({ sampleSession with currentState := TCS_IDLE, nextState := TCS_IDLE }, w') ∧
      w'.sendCount = (World.fresh allSendsSucceed).sendCount ∧
      commands w'.trace = commands (World.fresh allSendsSucceed).trace :=
  ⟨rfl, rfl,
   completed_state_absorbing hundredsCodeType
     { sampleSession with currentState := TCS_IDLE, nextState := TCS_IDLE }
     (World.fresh allSendsSucceed) rfl rfl⟩

/-! ## Initialize -/

/-- Once AUTHENTICATE has been sent, invocations other than replies change nothing. -/
theorem hostCalls_no_reply (TORCTL_CODE_TYPE : Int → TorControl_ReplyType)
    (cs : List HostCall) :
    ∀ (s : TorControlStatistics) (w : World), s.currentState = TCS_IDLE →
      (∀ c ∈ cs, c.isReply = false) →
      ∃ wF, hostCalls TORCTL_CODE_TYPE cs (s, w) = some (s, wF) ∧
        wF.sendCount = w.sendCount ∧ commands wF.trace = commands w.trace := by
  induction cs with
  | nil => intro s w _ _; exact ⟨w, rfl, rfl, rfl⟩
  | cons c cs ih =>
    intro s w hcur hcs
    have hc : c.isSuccessReply TORCTL_CODE_TYPE = false := by
      have := hcs c (List.mem_cons_self _ _)
      cases c <;> simp_all [HostCall.isReply, HostCall.isSuccessReply]
    obtain ⟨v, hv, -, b, d⟩ := hostCall_idle_noop TORCTL_CODE_TYPE c s w hcur hc
    obtain ⟨wF, hF, bF, dF⟩ := ih s v hcur (fun c' h' => hcs c' (List.mem_cons_of_mem _ h'))
    exact ⟨wF, by simp [hostCalls, hv, hF], by rw [bF, b], by rw [dF, d]⟩

/-- C8, counterexample: on the session constructed for host 10.0.0.5 and port 9051, with a
send that succeeds, `initialize` returns with `currentState` different from its value at
construction. -/
theorem initialize_keeps_state_counterexample :
    ∃ s1 w1, hostCall hundredsCodeType HostCall.init
        (torcontrolstatistics_new TCS_SEND_AUTHENTICATE 7 "10.0.0.5" 167772165 9051 3,
          World.fresh allSendsSucceed) = some (s1, w1) ∧
      s1.currentState ≠
        (torcontrolstatistics_new TCS_SEND_AUTHENTICATE 7 "10.0.0.5" 167772165 9051
          3).currentState := by
  refine ⟨{ torcontrolstatistics_new TCS_SEND_AUTHENTICATE 7 "10.0.0.5" 167772165 9051 3 with
      currentState := TCS_IDLE, nextState := TCS_RECV_AUTHENTICATE },
    (torControl_authenticate 3 "password" (World.fresh allSendsSucceed)).2, ?_, by decide⟩
  simp only [hostCall]
  rw [manageState_send_authenticate _ _ rfl]
  simp [World.fresh, allSendsSucceed, torcontrolstatistics_new]

/-- C8, amended: for a session constructed with any hostname and port, in a world where
nothing has been sent, `initialize` makes exactly one send attempt, the command
`AUTHENTICATE "password"` on the session's socket, and no log call; when that send
succeeds the session is left with `currentState = TCS_IDLE` and
`nextState = TCS_RECV_AUTHENTICATE`, and after any further invocations other than replies
the two fields still have these values and no further command has been sent. -/
theorem initialize_sends_authenticate (TORCTL_CODE_TYPE : Int → TorControl_ReplyType)
    (zeroState : torcontrolstatistic_state) (logFunc : Nat) (hostname : String) (ip port : Nat)
    (sockd : Int) (sendResults : Nat → Int) :
    (∃ b s1, _torcontrolstatistics_manageState
        (torcontrolstatistics_new zeroState logFunc hostname ip port sockd)
        (World.fresh sendResults) =
      (b, s1, { sendResults := sendResults, sendCount := 1,
                trace := [Output.authenticate sockd "password" (sendResults 0)] })) ∧
    (0 < sendResults 0 → ∀ cs : List HostCall, (∀ c ∈ cs, c.isReply = false) →
      ∃ sF wF, hostCalls TORCTL_CODE_TYPE (HostCall.init :: cs)
          (torcontrolstatistics_new zeroState logFunc hostname ip port sockd,
            World.fresh sendResults) = some (sF, wF) ∧
        sF.currentState = TCS_IDLE ∧ sF.nextState = TCS_RECV_AUTHENTICATE ∧
        wF.sendCount = 1 ∧
        commands wF.trace = [Output.authenticate sockd "password" (sendResults 0)]) := by
  have hstep := manageState_send_authenticate
    (torcontrolstatistics_new zeroState logFunc hostname ip port sockd)
    (World.fresh sendResults) rfl
  constructor
  · rw [hstep]
    by_cases hr : 0 < sendResults 0 <;>
      simp [World.fresh, hr, torControl_authenticate, torcontrolstatistics_new]
  · intro hr cs hcs
    obtain ⟨wF, hF, bF, dF⟩ := hostCalls_no_reply TORCTL_CODE_TYPE cs
      { torcontrolstatistics_new zeroState logFunc hostname ip port sockd with
        currentState := TCS_IDLE, nextState := TCS_RECV_AUTHENTICATE }
      (torControl_authenticate sockd "password" (World.fresh sendResults)).2 rfl hcs
    refine ⟨{ torcontrolstatistics_new zeroState logFunc hostname ip port sockd with
        currentState := TCS_IDLE, nextState := TCS_RECV_AUTHENTICATE }, wF, ?_, rfl, rfl,
      by rw [bF]; rfl, by rw [dF]; rfl⟩
    simp only [hostCalls, hostCall, hstep]
    simp only [World.fresh, hr, if_true, Option.some_bind]
    exact hF

/-- Witness of C8, amended: host 10.0.0.5, port 9051, a send that succeeds. -/
theorem initialize_sends_authenticate_witness :
    0 < allSendsSucceed 0 ∧
    (∀ c ∈ [HostCall.bwEvent 650 "650 BW 10 20" 10 20, HostCall.init], c.isReply = false) ∧
    ∃ sF wF, hostCalls hundredsCodeType
        (HostCall.init :: [HostCall.bwEvent 650 "650 BW 10 20" 10 20, HostCall.init])
        (torcontrolstatistics_new TCS_SEND_AUTHENTICATE 7 "10.0.0.5" 167772165 9051 3,
          World.fresh allSendsSucceed) = some (sF, wF) ∧
      sF.currentState = TCS_IDLE ∧ sF.nextState = TCS_RECV_AUTHENTICATE ∧
      wF.sendCount = 1 ∧
      commands wF.trace = [Output.authenticate 3 "password" (allSendsSucceed 0)] :=
  ⟨by decide, by simp [HostCall.isReply],
   (initialize_sends_authenticate hundredsCodeType TCS_SEND_AUTHENTICATE 7 "10.0.0.5"
     167772165 9051 3 allSendsSucceed).2 (by decide)
     [HostCall.bwEvent 650 "650 BW 10 20" 10 20, HostCall.init] (by simp [HostCall.isReply])⟩

/-! ## One outstanding command -/

theorem successReplies_cons (TORCTL_CODE_TYPE : Int → TorControl_ReplyType) (c : HostCall)
    (cs : List HostCall) :
    successReplies TORCTL_CODE_TYPE (c :: cs) =
      (if c.isSuccessReply TORCTL_CODE_TYPE = true then 1 else 0) +
        successReplies TORCTL_CODE_TYPE cs := by
  unfold successReplies
  by_cases h : c.isSuccessReply TORCTL_CODE_TYPE = true <;> simp [List.filter_cons, h]
  omega

/-- One invocation keeps the invariant when every send succeeds, and adds a command only
when it is a success-class reply, and then at most one. -/
theorem authenticateSent_step (TORCTL_CODE_TYPE : Int → TorControl_ReplyType) (sockd : Int)
    (sendResults : Nat → Int) (hall : ∀ k, 0 < sendResults k) (c : HostCall)
    (s : TorControlStatistics) (w : World) (hinv : AuthenticateSent sockd sendResults s w) :
    ∃ s1 w1, hostCall TORCTL_CODE_TYPE c (s, w) = some (s1, w1) ∧
      AuthenticateSent sockd sendResults s1 w1 ∧
      (commands w1.trace).length ≤ (commands w.trace).length +
        (if c.isSuccessReply TORCTL_CODE_TYPE = true then 1 else 0) ∧
      (c.isSuccessReply TORCTL_CODE_TYPE = false → commands w1.trace = commands w.trace) := by
  obtain ⟨hcur, hsock, hres, hph⟩ := hinv
  cases hc : c.isSuccessReply TORCTL_CODE_TYPE
  · obtain ⟨v, hv, a, b, d⟩ := hostCall_idle_noop TORCTL_CODE_TYPE c s w hcur hc
    refine ⟨s, v, hv, ⟨hcur, hsock, by rw [a, hres], ?_⟩, by simp [d], fun _ => d⟩
    rw [b, d]; exact hph
  · cases c <;> simp [HostCall.isSuccessReply] at hc
    rename_i first rest
    rcases hph with ⟨hn, hcount, htrace⟩ | ⟨hn | hn, htrace⟩
    · obtain ⟨v, hv, a, b, d⟩ :=
        hostCall_success_recv_authenticate TORCTL_CODE_TYPE first rest s w hn hc
      have hpos : 0 < w.sendResults w.sendCount := by rw [hres]; exact hall _
      rw [if_pos hpos] at hv
      refine ⟨_, v, hv, ⟨rfl, hsock, by rw [a, hres], Or.inr ⟨Or.inl rfl, ?_⟩⟩, ?_, ?_⟩
      · rw [d, htrace, hres, hcount, hsock]; rfl
      · rw [d]; simp
      · intro h; simp at h
    · obtain ⟨v, hv, a, b, d⟩ :=
        hostCall_success_recv_setevents TORCTL_CODE_TYPE first rest s w hn hc
      refine ⟨_, v, hv, ⟨rfl, hsock, by rw [a, hres], Or.inr ⟨Or.inr rfl, ?_⟩⟩, ?_, ?_⟩
      · rw [d, htrace]
      · rw [d]; simp
      · intro h; simp at h
    · obtain ⟨v, hv, a, b, d⟩ :=
        hostCall_success_idle TORCTL_CODE_TYPE first rest s w hcur hn hc
      refine ⟨s, v, hv, ⟨hcur, hsock, by rw [a, hres], Or.inr ⟨Or.inr hn, ?_⟩⟩, ?_, ?_⟩
      · rw [d, htrace]
      · rw [d]; simp
      · intro h; simp at h

/-- A run keeps the invariant when every send succeeds and adds at most as many commands
as it delivers success-class replies. -/
theorem authenticateSent_run (TORCTL_CODE_TYPE : Int → TorControl_ReplyType) (sockd : Int)
    (sendResults : Nat → Int) (hall : ∀ k, 0 < sendResults k) (cs : List HostCall) :
    ∀ (s : TorControlStatistics) (w : World), AuthenticateSent sockd sendResults s w →
      ∃ sF wF, hostCalls TORCTL_CODE_TYPE cs (s, w) = some (sF, wF) ∧
        AuthenticateSent sockd sendResults sF wF ∧
        (commands wF.trace).length ≤
          (commands w.trace).length + successReplies TORCTL_CODE_TYPE cs := by
  induction cs with
  | nil => intro s w hinv; exact ⟨s, w, rfl, hinv, by simp [successReplies]⟩
  | cons c cs ih =>
    intro s w hinv
    obtain ⟨s1, w1, h1, hinv1, hlen1, -⟩ :=
      authenticateSent_step TORCTL_CODE_TYPE sockd sendResults hall c s w hinv
    obtain ⟨sF, wF, hF, hinvF, hlenF⟩ := ih s1 w1 hinv1
    refine ⟨sF, wF, by simp [hostCalls, h1, hF], hinvF, ?_⟩
    rw [successReplies_cons]
    omega

/-- C10: for every session with `currentState = TCS_SEND_AUTHENTICATE` in a world where
nothing has been sent yet and every send succeeds, and for every sequence of invocations
that begins with `initialize`: the outbound command trace is an initial segment of
`AUTHENTICATE "password"`, `SETEVENTS CIRC STREAM ORCONN BW STREAM_BW`; it holds at least
the first command and at most one command more than the number of success-class replies
delivered after `initialize`; and an invocation that is not a success-class reply, run
next, sends no command. -/
theorem one_outstanding_command (TORCTL_CODE_TYPE : Int → TorControl_ReplyType)
    (s : TorControlStatistics) (sendResults : Nat → Int) (cs : List HostCall)
    (hnew : s.currentState = TCS_SEND_AUTHENTICATE) (hall : ∀ k, 0 < sendResults k) :
    ∃ sF wF, hostCalls TORCTL_CODE_TYPE (HostCall.init :: cs) (s, World.fresh sendResults) =
        some (sF, wF) ∧
      commands wF.trace <+:
        [Output.authenticate s.targetSockd "password" (sendResults 0),
         Output.setevents s.targetSockd "CIRC STREAM ORCONN BW STREAM_BW" (sendResults 1)] ∧
      1 ≤ (commands wF.trace).length ∧
      (commands wF.trace).length ≤ 1 + successReplies TORCTL_CODE_TYPE cs ∧
      ∀ c : HostCall, c.isSuccessReply TORCTL_CODE_TYPE = false →
        ∃ sG wG, hostCall TORCTL_CODE_TYPE c (sF, wF) = some (sG, wG) ∧
          commands wG.trace = commands wF.trace := by
  have hinit : hostCall TORCTL_CODE_TYPE HostCall.init (s, World.fresh sendResults) =
      some ({ s with currentState := TCS_IDLE, nextState := TCS_RECV_AUTHENTICATE },
        (torControl_authenticate s.targetSockd "password" (World.fresh sendResults)).2) := by
    simp only [hostCall]
    rw [manageState_send_authenticate _ _ hnew]
    simp [World.fresh, hall 0]
  have hinv : AuthenticateSent s.targetSockd sendResults
      { s with currentState := TCS_IDLE, nextState := TCS_RECV_AUTHENTICATE }
      (torControl_authenticate s.targetSockd "password" (World.fresh sendResults)).2 :=
    ⟨rfl, rfl, rfl, Or.inl ⟨rfl, rfl, rfl⟩⟩
  obtain ⟨sF, wF, hF, hinvF, hlenF⟩ :=
    authenticateSent_run TORCTL_CODE_TYPE s.targetSockd sendResults hall cs _ _ hinv
  have hlen0 : (commands (torControl_authenticate s.targetSockd "password"
      (World.fresh sendResults)).2.trace).length = 1 := rfl
  refine ⟨sF, wF, by simp [hostCalls, hinit, hF], ?_, ?_, by omega, fun c hc => ?_⟩
  · rcases hinvF.2.2.2 with ⟨-, -, ht⟩ | ⟨-, ht⟩
    · rw [ht]; exact ⟨[_], rfl⟩
    · rw [ht]
  · rcases hinvF.2.2.2 with ⟨-, -, ht⟩ | ⟨-, ht⟩ <;> rw [ht] <;> simp
  · obtain ⟨sG, wG, hG, -, -, hsame⟩ :=
      authenticateSent_step TORCTL_CODE_TYPE s.targetSockd sendResults hall c sF wF hinvF
    exact ⟨sG, wG, hG, hsame hc⟩

/-- Witness of C10: the sample session, every send succeeding, with an event, an error
reply, two success replies and a second `initialize` after the first. -/
theorem one_outstanding_command_witness :
    sampleSession.currentState = TCS_SEND_AUTHENTICATE ∧ (∀ k, 0 < allSendsSucceed k) ∧
    ∃ sF wF, hostCalls hundredsCodeType
        (HostCall.init ::
          [HostCall.bwEvent 650 "650 BW 10 20" 10 20,
           HostCall.responseEvent { code := 515, body := "Authentication failed" } [],
           HostCall.responseEvent { code := 250, body := "OK" } [],
           HostCall.responseEvent { code := 250, body := "OK" } [],
           HostCall.init])
        (sampleSession, World.fresh allSendsSucceed) = some (sF, wF) ∧
      commands wF.trace <+:
        [Output.authenticate sampleSession.targetSockd "password" (allSendsSucceed 0),
         Output.setevents sampleSession.targetSockd "CIRC STREAM ORCONN BW STREAM_BW"
           (allSendsSucceed 1)] ∧
      1 ≤ (commands wF.trace).length ∧
      (commands wF.trace).length ≤ 1 + successReplies hundredsCodeType
          [HostCall.bwEvent 650 "650 BW 10 20" 10 20,
           HostCall.responseEvent { code := 515, body := "Authentication failed" } [],
           HostCall.responseEvent { code := 250, body := "OK" } [],
           HostCall.responseEvent { code := 250, body := "OK" } [],
           HostCall.init] ∧
      ∀ c : HostCall, c.isSuccessReply hundredsCodeType = false →
        ∃ sG wG, hostCall hundredsCodeType c (sF, wF) = some (sG, wG) ∧
          commands wG.trace = commands wF.trace :=
  ⟨rfl, fun _ => by show (0 : Int) < 1; decide,
   one_outstanding_command hundredsCodeType sampleSession allSendsSucceed
     [HostCall.bwEvent 650 "650 BW 10 20" 10 20,
      HostCall.responseEvent { code := 515, body := "Authentication failed" } [],
      HostCall.responseEvent { code := 250, body := "OK" } [],
      HostCall.responseEvent { code := 250, body := "OK" } [],
      HostCall.init]
     rfl (fun _ => by show (0 : Int) < 1; decide)⟩

/-! ## Reply lists and the fields that never change -/

/-- C11: for every session, every world and any two reply lists with the same first line,
whatever their remaining lines, the reply handler returns the same result: the same
session, and the same world, hence the same log calls and the same commands. -/
theorem only_first_reply_line_matters (TORCTL_CODE_TYPE : Int → TorControl_ReplyType)
    (s : TorControlStatistics) (w : World) (line : TorControl_ReplyLine)
    (rest1 rest2 : List TorControl_ReplyLine) :
    _torcontrolstatistics_handleResponseEvent TORCTL_CODE_TYPE s (line :: rest1) w =
      _torcontrolstatistics_handleResponseEvent TORCTL_CODE_TYPE s (line :: rest2) w := by
  simp only [_torcontrolstatistics_handleResponseEvent]

/-- The step changes no field of the session other than `currentState` and `nextState`. -/
theorem manageState_frame (s : TorControlStatistics) (w : World) :
    (_torcontrolstatistics_manageState s w).2.1 =
      { s with currentState := (_torcontrolstatistics_manageState s w).2.1.currentState,
               nextState := (_torcontrolstatistics_manageState s w).2.1.nextState } := by
  rcases h : s.currentState with _ | _ | _ | _ | _ | raw
  · rw [manageState_send_authenticate _ _ h]
    by_cases hr : 0 < w.sendResults w.sendCount <;> simp [hr]
  · rw [manageState_recv_authenticate _ _ h, manageState_send_setevents _ _ rfl]
    by_cases hr : 0 < w.sendResults w.sendCount <;> simp [hr]
  · rw [manageState_send_setevents _ _ h]
    by_cases hr : 0 < w.sendResults w.sendCount <;> simp [hr]
  · rw [manageState_recv_setevents _ _ h]
  · rw [manageState_idle _ _ h]
    split <;> rfl
  · rw [manageState_unnamed _ _ raw h]

/-- C12: for every host invocation (`initialize`, a reply of any class with any lines, each
of the six events), every session and every world, the invocation returns, and the
session it returns has the log function, hostname, address, port and socket of the
session it was given: it is that session with at most `currentState` and `nextState`
replaced. -/
theorem endpoint_and_log_sink_immutable (TORCTL_CODE_TYPE : Int → TorControl_ReplyType)
    (c : HostCall) (s : TorControlStatistics) (w : World) :
    ∃ s1 w1, hostCall TORCTL_CODE_TYPE c (s, w) = some (s1, w1) ∧
      s1.log = s.log ∧ s1.targetHostname = s.targetHostname ∧ s1.targetIP = s.targetIP ∧
      s1.targetPort = s.targetPort ∧ s1.targetSockd = s.targetSockd ∧
      s1 = { s with currentState := s1.currentState, nextState := s1.nextState } := by
  have key : ∀ s1 : TorControlStatistics,
      s1 = { s with currentState := s1.currentState, nextState := s1.nextState } →
      s1.log = s.log ∧ s1.targetHostname = s.targetHostname ∧ s1.targetIP = s.targetIP ∧
      s1.targetPort = s.targetPort ∧ s1.targetSockd = s.targetSockd ∧
      s1 = { s with currentState := s1.currentState, nextState := s1.nextState } := by
    intro s1 h
    refine ⟨?_, ?_, ?_, ?_, ?_, h⟩ <;> rw [h]
  by_cases he : c.isEvent = true
  · obtain ⟨v, hv, -, -, -⟩ := hostCall_event TORCTL_CODE_TYPE c s w he
    exact ⟨s, v, hv, key s rfl⟩
  · cases c <;> simp [HostCall.isEvent] at he
    · exact ⟨_, _, rfl, key _ (manageState_frame s w)⟩
    · rename_i first rest
      cases hT : TORCTL_CODE_TYPE first.code
      · exact ⟨s, _,
          by simp only [hostCall, _torcontrolstatistics_handleResponseEvent, hT]; rfl,
          key s rfl⟩
      · refine ⟨_, _,
          by simp only [hostCall, _torcontrolstatistics_handleResponseEvent, hT]; rfl,
          key _ ?_⟩
        have h := manageState_frame { s with currentState := s.nextState }
          (w.callLog s.log G_LOG_LEVEL_MESSAGE "_torcontrolstatistics_handleResponseEvent"
            "[%d] SUCCESS: %s" [LogArg.int first.code, LogArg.str first.body])
        exact h
      · exact ⟨s, w, by simp only [hostCall, _torcontrolstatistics_handleResponseEvent, hT],
          key s rfl⟩

/-! ## The step, state by state -/

/-- C13, counterexample: on the sample session (`currentState = TCS_SEND_AUTHENTICATE`) with
a send that succeeds, the step returns with `currentState = TCS_IDLE`, which is not
`TCS_RECV_AUTHENTICATE`, and with `nextState = TCS_RECV_AUTHENTICATE`, which is not
`TCS_SEND_SETEVENTS`. -/
theorem send_authenticate_transition_counterexample :
    sampleSession.currentState = TCS_SEND_AUTHENTICATE ∧
    0 < (World.fresh allSendsSucceed).sendResults (World.fresh allSendsSucceed).sendCount ∧
    (_torcontrolstatistics_manageState sampleSession
      (World.fresh allSendsSucceed)).2.1.currentState ≠ TCS_RECV_AUTHENTICATE ∧
    (_torcontrolstatistics_manageState sampleSession
      (World.fresh allSendsSucceed)).2.1.nextState ≠ TCS_SEND_SETEVENTS := by
  refine ⟨rfl, by decide, ?_, ?_⟩ <;>
    rw [manageState_send_authenticate _ _ rfl] <;>
    simp [World.fresh, allSendsSucceed]

/-- C13, amended: for every session with `currentState = TCS_SEND_AUTHENTICATE`, when the
AUTHENTICATE send succeeds, the step returns `FALSE` and leaves the session with
`currentState = TCS_IDLE` and `nextState = TCS_RECV_AUTHENTICATE`, every other field as it
was; it has made one send attempt, `AUTHENTICATE "password"` on the session's socket. -/
theorem send_authenticate_transition (s : TorControlStatistics) (w : World)
    (hstate : s.currentState = TCS_SEND_AUTHENTICATE)
    (hsend : 0 < w.sendResults w.sendCount) :
    _torcontrolstatistics_manageState s w =
      (false, { s with currentState := TCS_IDLE, nextState := TCS_RECV_AUTHENTICATE },
        { sendResults := w.sendResults
          sendCount := w.sendCount + 1
          trace := w.trace ++
            [Output.authenticate s.targetSockd "password" (w.sendResults w.sendCount)] }) := by
  rw [manageState_send_authenticate _ _ hstate, if_pos hsend]
  rfl

/-- Witness of C13, amended: the sample session, the send succeeding. -/
theorem send_authenticate_transition_witness :
    sampleSession.currentState = TCS_SEND_AUTHENTICATE ∧
    0 < (World.fresh allSendsSucceed).sendResults (World.fresh allSendsSucceed).sendCount ∧
    _torcontrolstatistics_manageState sampleSession (World.fresh allSendsSucceed) =
      (false,
        { sampleSession with currentState := TCS_IDLE, nextState := TCS_RECV_AUTHENTICATE },
        { sendResults := (World.fresh allSendsSucceed).sendResults
          sendCount := (World.fresh allSendsSucceed).sendCount + 1
          trace := (World.fresh allSendsSucceed).trace ++
            [Output.authenticate sampleSession.targetSockd "password"
              ((World.fresh allSendsSucceed).sendResults
                (World.fresh allSendsSucceed).sendCount)] }) :=
  ⟨rfl, by decide,
   send_authenticate_transition sampleSession (World.fresh allSendsSucceed) rfl (by decide)⟩

/-- C14: for every session (any `currentState`, a value outside the five enumerators
included, any `nextState`) and every world (any send outcome), the step returns `TRUE`
exactly when the session it leaves has `currentState = TCS_IDLE` and
`nextState = TCS_IDLE`; entered with `currentState = TCS_IDLE` and `nextState` different
from `TCS_IDLE`, or with a `currentState` outside the five enumerators, it returns `FALSE`
and leaves the session and the world as they were. -/
theorem completion_report (s : TorControlStatistics) (w : World) :
    ((_torcontrolstatistics_manageState s w).1 = true ↔
      ((_torcontrolstatistics_manageState s w).2.1.currentState = TCS_IDLE ∧
       (_torcontrolstatistics_manageState s w).2.1.nextState = TCS_IDLE)) ∧
    (s.currentState = TCS_IDLE → s.nextState ≠ TCS_IDLE →
      _torcontrolstatistics_manageState s w = (false, s, w)) ∧
    (∀ raw, s.currentState = unnamed raw →
      _torcontrolstatistics_manageState s w = (false, s, w)) := by
  refine ⟨?_, fun hcur hnext => ?_, fun raw hraw => manageState_unnamed s w raw hraw⟩
  · rcases h : s.currentState with _ | _ | _ | _ | _ | raw
    · rw [manageState_send_authenticate _ _ h]
      by_cases hr : 0 < w.sendResults w.sendCount <;> simp [hr, h]
    · rw [manageState_recv_authenticate _ _ h, manageState_send_setevents _ _ rfl]
      by_cases hr : 0 < w.sendResults w.sendCount <;> simp [hr]
    · rw [manageState_send_setevents _ _ h]
      by_cases hr : 0 < w.sendResults w.sendCount <;> simp [hr, h]
    · rw [manageState_recv_setevents _ _ h]
      simp
    · rw [manageState_idle _ _ h]
      by_cases hn : s.nextState = TCS_IDLE <;> simp [hn, h]
    · rw [manageState_unnamed _ _ raw h]
      simp [h]
  · rw [manageState_idle _ _ hcur, if_neg hnext]

/-- Witness of C14: the sample session while it waits for the reply to AUTHENTICATE, and
the sample session with a state value outside the enumeration. -/
theorem completion_report_witness :
    (sampleAwaitingAuthenticate.currentState = TCS_IDLE ∧
     sampleAwaitingAuthenticate.nextState ≠ TCS_IDLE ∧
     _torcontrolstatistics_manageState sampleAwaitingAuthenticate
        (World.fresh allSendsSucceed) =
       (false, sampleAwaitingAuthenticate, World.fresh allSendsSucceed)) ∧
    (({ sampleSession with currentState := unnamed 17 } : TorControlStatistics).currentState =
        unnamed 17 ∧
     _torcontrolstatistics_manageState { sampleSession with currentState := unnamed 17 }
        (World.fresh allSendsSucceed) =
       (false, { sampleSession with currentState := unnamed 17 },
         World.fresh allSendsSucceed)) :=
  ⟨⟨rfl, by decide,
    (completion_report sampleAwaitingAuthenticate (World.fresh allSendsSucceed)).2.1 rfl
      (by decide)⟩,
   ⟨rfl,
    (completion_report { sampleSession with currentState := unnamed 17 }
      (World.fresh allSendsSucceed)).2.2 17 rfl⟩⟩

/-- C15: for every session with `currentState = TCS_RECV_AUTHENTICATE` (any `nextState`) and
every world (any send outcome), the step returns exactly what it returns on the same
session with `currentState = TCS_SEND_SETEVENTS`: the same result, session and world; and
that one call makes the send attempt of SETEVENTS, its only action. -/
theorem recv_authenticate_chains (s : TorControlStatistics) (w : World)
    (hstate : s.currentState = TCS_RECV_AUTHENTICATE) :
    _torcontrolstatistics_manageState s w =
      _torcontrolstatistics_manageState { s with currentState := TCS_SEND_SETEVENTS } w ∧
    (_torcontrolstatistics_manageState s w).2.2 =
      { sendResults := w.sendResults
        sendCount := w.sendCount + 1
        trace := w.trace ++
          [Output.setevents s.targetSockd "CIRC STREAM ORCONN BW STREAM_BW"
            (w.sendResults w.sendCount)] } := by
  refine ⟨manageState_recv_authenticate s w hstate, ?_⟩
  rw [manageState_recv_authenticate _ _ hstate, manageState_send_setevents _ _ rfl]
  by_cases hr : 0 < w.sendResults w.sendCount <;> simp [hr, torControl_setevents]

/-- Witness of C15: the sample session once the reply to AUTHENTICATE has been committed. -/
theorem recv_authenticate_chains_witness :
    ({ sampleSession with currentState := TCS_RECV_AUTHENTICATE } :
        TorControlStatistics).currentState = TCS_RECV_AUTHENTICATE ∧
    _torcontrolstatistics_manageState
        { sampleSession with currentState := TCS_RECV_AUTHENTICATE }
        (World.fresh onlyFirstSendSucceeds) =
      _torcontrolstatistics_manageState
        { ({ sampleSession with currentState := TCS_RECV_AUTHENTICATE } :
            TorControlStatistics) with currentState := TCS_SEND_SETEVENTS }
        (World.fresh onlyFirstSendSucceeds) ∧
    (_torcontrolstatistics_manageState
        { sampleSession with currentState := TCS_RECV_AUTHENTICATE }
        (World.fresh onlyFirstSendSucceeds)).2.2 =
      { sendResults := (World.fresh onlyFirstSendSucceeds).sendResults
        sendCount := (World.fresh onlyFirstSendSucceeds).sendCount + 1
        trace := (World.fresh onlyFirstSendSucceeds).trace ++
          [Output.setevents
            ({ sampleSession with currentState := TCS_RECV_AUTHENTICATE } :
              TorControlStatistics).targetSockd
            "CIRC STREAM ORCONN BW STREAM_BW"
            ((World.fresh onlyFirstSendSucceeds).sendResults
              (World.fresh onlyFirstSendSucceeds).sendCount)] } :=
  ⟨rfl,
   recv_authenticate_chains { sampleSession with currentState := TCS_RECV_AUTHENTICATE }
     (World.fresh onlyFirstSendSucceeds) rfl⟩

/-- C16: for every session with `currentState = TCS_RECV_SETEVENTS` (any `nextState`) and
every world, the step returns `TRUE` in that call, leaves the world as it was (no command,
no log call) and leaves the session with `currentState = TCS_IDLE` and
`nextState = TCS_IDLE`. -/
theorem recv_setevents_completes (s : TorControlStatistics) (w : World)
    (hstate : s.currentState = TCS_RECV_SETEVENTS) :
    _torcontrolstatistics_manageState s w =
      (true, { s with currentState := TCS_IDLE, nextState := TCS_IDLE }, w) :=
  manageState_recv_setevents s w hstate

/-- Witness of C16: the sample session once the reply to SETEVENTS has been committed. -/
theorem recv_setevents_completes_witness :
    ({ sampleSession with currentState := TCS_RECV_SETEVENTS,
                           nextState := TCS_RECV_SETEVENTS } :
        TorControlStatistics).currentState = TCS_RECV_SETEVENTS ∧
    _torcontrolstatistics_manageState
        { sampleSession with currentState := TCS_RECV_SETEVENTS,
                             nextState := TCS_RECV_SETEVENTS }
        (World.fresh allSendsSucceed) =
      (true,
        { ({ sampleSession with currentState := TCS_RECV_SETEVENTS,
                                nextState := TCS_RECV_SETEVENTS } : TorControlStatistics) with
          currentState := TCS_IDLE, nextState := TCS_IDLE },
        World.fresh allSendsSucceed) :=
  ⟨rfl,
   recv_setevents_completes
     { sampleSession with currentState := TCS_RECV_SETEVENTS,
                          nextState := TCS_RECV_SETEVENTS }
     (World.fresh allSendsSucceed) rfl⟩

/-! ## Chaining, the SETEVENTS command and failed sends -/

/-- Two evaluations of the dispatch point always reach the end of the function, with the
result of `_torcontrolstatistics_manageState`. -/
theorem manageStateWithin_two (s : TorControlStatistics) (w : World) (n : Nat) :
    manageStateWithin (n + 2) s w = some (_torcontrolstatistics_manageState s w) := by
  rcases h : s.currentState with _ | _ | _ | _ | _ | raw
  · rw [manageState_send_authenticate _ _ h]
    by_cases hr : 0 < w.sendResults w.sendCount <;>
      simp [manageStateWithin, dispatchPoint, h, hr, torControl_authenticate]
  · rw [manageState_recv_authenticate _ _ h, manageState_send_setevents _ _ rfl]
    by_cases hr : 0 < w.sendResults w.sendCount <;>
      simp [manageStateWithin, dispatchPoint, h, hr, torControl_setevents]
  · rw [manageState_send_setevents _ _ h]
    by_cases hr : 0 < w.sendResults w.sendCount <;>
      simp [manageStateWithin, dispatchPoint, h, hr, torControl_setevents]
  · rw [manageState_recv_setevents _ _ h]
    simp [manageStateWithin, dispatchPoint, h]
  · rw [manageState_idle _ _ h]
    by_cases hn : s.nextState = TCS_IDLE <;>
      simp [manageStateWithin, dispatchPoint, h, hn]
  · rw [manageState_unnamed _ _ raw h]
    simp [manageStateWithin, dispatchPoint, h]

/-- C17: for every session and every world (any send outcome), the step reaches its end
within two evaluations of the dispatch point, that is after at most one re-evaluation, so
within the two re-evaluations of the claim; a call makes at most one send attempt; one
evaluation makes at most one send attempt; an evaluation that has made a send attempt
leaves the function instead of jumping back, and an evaluation that jumps back has left
the world as it was. -/
theorem selective_chaining (s : TorControlStatistics) (w : World) :
    (∀ n, manageStateWithin (n + 2) s w = some (_torcontrolstatistics_manageState s w)) ∧
    manageStateWithin 3 s w = some (_torcontrolstatistics_manageState s w) ∧
    (_torcontrolstatistics_manageState s w).2.2.sendCount ≤ w.sendCount + 1 ∧
    (dispatchPoint s w).world.sendCount ≤ w.sendCount + 1 ∧
    ((dispatchPoint s w).world.sendCount ≠ w.sendCount →
      (dispatchPoint s w).isReturn = true) ∧
    ((dispatchPoint s w).isReturn = false → (dispatchPoint s w).world = w) := by
  refine ⟨manageStateWithin_two s w, manageStateWithin_two s w 1, ?_, ?_, ?_, ?_⟩
  · obtain ⟨cmds, -, hlen, hrun⟩ := manageState_world s w
    have h := hrun w.trace
    have hw : ({ w with trace := w.trace } : World) = w := rfl
    rw [hw] at h
    rw [h]
    simp only
    omega
  · rcases h : s.currentState with _ | _ | _ | _ | _ | raw <;>
      simp only [dispatchPoint, h] <;>
      (try split) <;>
      simp [Dispatch.world, torControl_authenticate, torControl_setevents]
  · rcases h : s.currentState with _ | _ | _ | _ | _ | raw <;>
      simp only [dispatchPoint, h] <;>
      (try split) <;>
      simp [Dispatch.world, Dispatch.isReturn]
  · rcases h : s.currentState with _ | _ | _ | _ | _ | raw <;>
      simp only [dispatchPoint, h] <;>
      (try split) <;>
      simp [Dispatch.world, Dispatch.isReturn]

/-- Witness of C17: the evaluation that sends SETEVENTS returns, and the evaluation at
`TCS_RECV_AUTHENTICATE` jumps back without a send. -/
theorem selective_chaining_witness :
    ((dispatchPoint { sampleSession with currentState := TCS_SEND_SETEVENTS }
        (World.fresh allSendsSucceed)).world.sendCount ≠
        (World.fresh allSendsSucceed).sendCount ∧
     (dispatchPoint { sampleSession with currentState := TCS_SEND_SETEVENTS }
        (World.fresh allSendsSucceed)).isReturn = true) ∧
    ((dispatchPoint { sampleSession with currentState := TCS_RECV_AUTHENTICATE }
        (World.fresh allSendsSucceed)).isReturn = false ∧
     (dispatchPoint { sampleSession with currentState := TCS_RECV_AUTHENTICATE }
        (World.fresh allSendsSucceed)).world = World.fresh allSendsSucceed) :=
  ⟨⟨by decide,
    (selective_chaining { sampleSession with currentState := TCS_SEND_SETEVENTS }
      (World.fresh allSendsSucceed)).2.2.2.2.1 (by decide)⟩,
   ⟨rfl,
    (selective_chaining { sampleSession with currentState := TCS_RECV_AUTHENTICATE }
      (World.fresh allSendsSucceed)).2.2.2.2.2 rfl⟩⟩

/-- C18, counterexample: on the sample session with `currentState = TCS_SEND_SETEVENTS` and
a send that succeeds, the one command the step sends is SETEVENTS with the argument
`CIRC STREAM ORCONN BW STREAM_BW`, which names the event STREAM, not one of ORCONN, CIRC,
BW and STREAM_BW; and the step leaves `nextState = TCS_RECV_SETEVENTS`, not `TCS_IDLE`. -/
theorem setevents_subscription_counterexample :
    commands (_torcontrolstatistics_manageState
        { sampleSession with currentState := TCS_SEND_SETEVENTS }
        (World.fresh allSendsSucceed)).2.2.trace =
      [Output.setevents 3 "CIRC STREAM ORCONN BW STREAM_BW" 1] ∧
    "STREAM" ∈ eventNames "CIRC STREAM ORCONN BW STREAM_BW" ∧
    "STREAM" ∉ ["ORCONN", "CIRC", "BW", "STREAM_BW"] ∧
    (_torcontrolstatistics_manageState
        { sampleSession with currentState := TCS_SEND_SETEVENTS }
        (World.fresh allSendsSucceed)).2.1.nextState ≠ TCS_IDLE := by
  refine ⟨?_, by decide, by decide, ?_⟩ <;>
    rw [manageState_send_setevents _ _ rfl] <;>
    simp [World.fresh, allSendsSucceed, torControl_setevents, commands, Output.isCommand,
      sampleSession, torcontrolstatistics_new]

/-- C18, amended: for every session with `currentState = TCS_SEND_SETEVENTS`, the step makes
exactly one send attempt, SETEVENTS on the session's socket with the fixed argument
`CIRC STREAM ORCONN BW STREAM_BW`, that is the event names CIRC, STREAM, ORCONN, BW and
STREAM_BW and no other; and when the send succeeds it returns `FALSE` and leaves the
session with `currentState = TCS_IDLE` and `nextState = TCS_RECV_SETEVENTS`. -/
theorem setevents_subscription (s : TorControlStatistics) (w : World)
    (hstate : s.currentState = TCS_SEND_SETEVENTS) :
    (_torcontrolstatistics_manageState s w).2.2 =
      { sendResults := w.sendResults
        sendCount := w.sendCount + 1
        trace := w.trace ++
          [Output.setevents s.targetSockd "CIRC STREAM ORCONN BW STREAM_BW"
            (w.sendResults w.sendCount)] } ∧
    eventNames "CIRC STREAM ORCONN BW STREAM_BW" =
      ["CIRC", "STREAM", "ORCONN", "BW", "STREAM_BW"] ∧
    (0 < w.sendResults w.sendCount →
      (_torcontrolstatistics_manageState s w).1 = false ∧
      (_torcontrolstatistics_manageState s w).2.1 =
        { s with currentState := TCS_IDLE, nextState := TCS_RECV_SETEVENTS }) := by
  rw [manageState_send_setevents _ _ hstate]
  refine ⟨?_, by decide, fun hr => ?_⟩
  · by_cases hr : 0 < w.sendResults w.sendCount <;> simp [hr, torControl_setevents]
  · simp [hr]

/-- Witness of C18, amended: the sample session about to send SETEVENTS, the send
succeeding. -/
theorem setevents_subscription_witness :
    ({ sampleSession with currentState := TCS_SEND_SETEVENTS } :
        TorControlStatistics).currentState = TCS_SEND_SETEVENTS ∧
    0 < (World.fresh allSendsSucceed).sendResults (World.fresh allSendsSucceed).sendCount ∧
    (_torcontrolstatistics_manageState
        { sampleSession with currentState := TCS_SEND_SETEVENTS }
        (World.fresh allSendsSucceed)).1 = false ∧
    (_torcontrolstatistics_manageState
        { sampleSession with currentState := TCS_SEND_SETEVENTS }
        (World.fresh allSendsSucceed)).2.1 =
      { ({ sampleSession with currentState := TCS_SEND_SETEVENTS } : TorControlStatistics) with
        currentState := TCS_IDLE, nextState := TCS_RECV_SETEVENTS } :=
  ⟨rfl, by decide,
   (setevents_subscription { sampleSession with currentState := TCS_SEND_SETEVENTS }
     (World.fresh allSendsSucceed) rfl).2.2 (by decide)⟩

/-- C19: for every session and world in which the send attempt fails (result not greater
than zero): from `TCS_SEND_AUTHENTICATE` and from `TCS_SEND_SETEVENTS` the step returns
`FALSE` and leaves the whole session as it was (`nextState` and `currentState` included),
having made the one send attempt, and a step on the session it leaves, in any world,
attempts the same command again; from `TCS_RECV_AUTHENTICATE` the step returns `FALSE` and
leaves `currentState = TCS_SEND_SETEVENTS`, `nextState` as it was. -/
theorem failed_send_retryable (s : TorControlStatistics) (w : World)
    (hfail : w.sendResults w.sendCount ≤ 0) :
    (s.currentState = TCS_SEND_AUTHENTICATE →
      _torcontrolstatistics_manageState s w =
        (false, s,
          { sendResults := w.sendResults
            sendCount := w.sendCount + 1
            trace := w.trace ++
              [Output.authenticate s.targetSockd "password" (w.sendResults w.sendCount)] }) ∧
      ∀ w1 : World,
        (_torcontrolstatistics_manageState (_torcontrolstatistics_manageState s w).2.1
          w1).2.2.trace =
          w1.trace ++
            [Output.authenticate s.targetSockd "password" (w1.sendResults w1.sendCount)]) ∧
    (s.currentState = TCS_SEND_SETEVENTS →
      _torcontrolstatistics_manageState s w =
        (false, s,
          { sendResults := w.sendResults
            sendCount := w.sendCount + 1
            trace := w.trace ++
              [Output.setevents s.targetSockd "CIRC STREAM ORCONN BW STREAM_BW"
                (w.sendResults w.sendCount)] }) ∧
      ∀ w1 : World,
        (_torcontrolstatistics_manageState (_torcontrolstatistics_manageState s w).2.1
          w1).2.2.trace =
          w1.trace ++
            [Output.setevents s.targetSockd "CIRC STREAM ORCONN BW STREAM_BW"
              (w1.sendResults w1.sendCount)]) ∧
    (s.currentState = TCS_RECV_AUTHENTICATE →
      _torcontrolstatistics_manageState s w =
        (false, { s with currentState := TCS_SEND_SETEVENTS },
          { sendResults := w.sendResults
            sendCount := w.sendCount + 1
            trace := w.trace ++
              [Output.setevents s.targetSockd "CIRC STREAM ORCONN BW STREAM_BW"
                (w.sendResults w.sendCount)] })) := by
  have hneg : ¬ 0 < w.sendResults w.sendCount := not_lt.mpr hfail
  refine ⟨fun h => ?_, fun h => ?_, fun h => ?_⟩
  · have e : _torcontrolstatistics_manageState s w =
        (false, s,
          { sendResults := w.sendResults
            sendCount := w.sendCount + 1
            trace := w.trace ++
              [Output.authenticate s.targetSockd "password" (w.sendResults w.sendCount)] }) := by
      rw [manageState_send_authenticate _ _ h, if_neg hneg]; rfl
    refine ⟨e, fun w1 => ?_⟩
    rw [e]
    simp only
    rw [manageState_send_authenticate _ _ h]
    by_cases hr : 0 < w1.sendResults w1.sendCount <;> simp [hr, torControl_authenticate]
  · have e : _torcontrolstatistics_manageState s w =
        (false, s,
          { sendResults := w.sendResults
            sendCount := w.sendCount + 1
            trace := w.trace ++
              [Output.setevents s.targetSockd "CIRC STREAM ORCONN BW STREAM_BW"
                (w.sendResults w.sendCount)] }) := by
      rw [manageState_send_setevents _ _ h, if_neg hneg]; rfl
    refine ⟨e, fun w1 => ?_⟩
    rw [e]
    simp only
    rw [manageState_send_setevents _ _ h]
    by_cases hr : 0 < w1.sendResults w1.sendCount <;> simp [hr, torControl_setevents]
  · rw [manageState_recv_authenticate _ _ h, manageState_send_setevents _ _ rfl, if_neg hneg]
    rfl

/-- Witness of C19: SETEVENTS is reached from `TCS_RECV_AUTHENTICATE` on the sample session
and its send fails. -/
theorem failed_send_retryable_witness :
    onlyFirstSendSucceeds 1 ≤ 0 ∧
    ({ sampleSession with currentState := TCS_RECV_AUTHENTICATE,
                           nextState := TCS_RECV_AUTHENTICATE } :
        TorControlStatistics).currentState = TCS_RECV_AUTHENTICATE ∧
    _torcontrolstatistics_manageState
        { sampleSession with currentState := TCS_RECV_AUTHENTICATE,
                             nextState := TCS_RECV_AUTHENTICATE }
        { sendResults := onlyFirstSendSucceeds, sendCount := 1,
          trace := [Output.authenticate 3 "password" 1] } =
      (false,
        { ({ sampleSession with currentState := TCS_RECV_AUTHENTICATE,
                                nextState := TCS_RECV_AUTHENTICATE } : TorControlStatistics) with
          currentState := TCS_SEND_SETEVENTS },
        { sendResults := onlyFirstSendSucceeds
          sendCount := 1 + 1
          trace := [Output.authenticate 3 "password" 1] ++
            [Output.setevents
              ({ sampleSession with currentState := TCS_RECV_AUTHENTICATE,
                                    nextState := TCS_RECV_AUTHENTICATE } :
                TorControlStatistics).targetSockd
              "CIRC STREAM ORCONN BW STREAM_BW" (onlyFirstSendSucceeds 1)] }) :=
  ⟨by decide, rfl,
   (failed_send_retryable
     { sampleSession with currentState := TCS_RECV_AUTHENTICATE,
                          nextState := TCS_RECV_AUTHENTICATE }
     { sendResults := onlyFirstSendSucceeds, sendCount := 1,
       trace := [Output.authenticate 3 "password" 1] } (by decide)).2.2 rfl⟩

/-! ## Await states -/

/-- One invocation, every send succeeding, from a session that has sent AUTHENTICATE and
has received `k` success-class replies since: the session waits for the reply to
AUTHENTICATE exactly when `k = 0`, for the reply to SETEVENTS exactly when `k = 1`, and
has completed when `2 ≤ k`. -/
theorem phase_step (TORCTL_CODE_TYPE : Int → TorControl_ReplyType) (sockd : Int)
    (sendResults : Nat → Int) (hall : ∀ k, 0 < sendResults k) (c : HostCall)
    (s : TorControlStatistics) (w : World) (k : Nat)
    (hinv : AuthenticateSent sockd sendResults s w)
    (hphase : (s.nextState = TCS_RECV_AUTHENTICATE ∧ k = 0) ∨
      (s.nextState = TCS_RECV_SETEVENTS ∧ k = 1) ∨ (s.nextState = TCS_IDLE ∧ 2 ≤ k)) :
    ∃ s1 w1, hostCall TORCTL_CODE_TYPE c (s, w) = some (s1, w1) ∧
      AuthenticateSent sockd sendResults s1 w1 ∧
      ((s1.nextState = TCS_RECV_AUTHENTICATE ∧
          k + (if c.isSuccessReply TORCTL_CODE_TYPE = true then 1 else 0) = 0) ∨
        (s1.nextState = TCS_RECV_SETEVENTS ∧
          k + (if c.isSuccessReply TORCTL_CODE_TYPE = true then 1 else 0) = 1) ∨
        (s1.nextState = TCS_IDLE ∧
          2 ≤ k + (if c.isSuccessReply TORCTL_CODE_TYPE = true then 1 else 0))) := by
  obtain ⟨s1, w1, h1, hinv1, -, -⟩ :=
    authenticateSent_step TORCTL_CODE_TYPE sockd sendResults hall c s w hinv
  refine ⟨s1, w1, h1, hinv1, ?_⟩
  obtain ⟨hcur, -, hres, -⟩ := hinv
  cases hc : c.isSuccessReply TORCTL_CODE_TYPE
  · obtain ⟨v, hv, -, -, -⟩ := hostCall_idle_noop TORCTL_CODE_TYPE c s w hcur hc
    rw [hv] at h1
    simp only [Option.some.injEq, Prod.mk.injEq] at h1
    obtain ⟨rfl, -⟩ := h1
    simpa using hphase
  · cases c <;> simp [HostCall.isSuccessReply] at hc
    rename_i first rest
    rcases hphase with ⟨hn, hk⟩ | ⟨hn, hk⟩ | ⟨hn, hk⟩
    · obtain ⟨v, hv, -, -, -⟩ :=
        hostCall_success_recv_authenticate TORCTL_CODE_TYPE first rest s w hn hc
      have hpos : 0 < w.sendResults w.sendCount := by rw [hres]; exact hall _
      rw [if_pos hpos, h1] at hv
      simp only [Option.some.injEq, Prod.mk.injEq] at hv
      obtain ⟨rfl, -⟩ := hv
      exact Or.inr (Or.inl ⟨rfl, by simp [hk]⟩)
    · obtain ⟨v, hv, -, -, -⟩ :=
        hostCall_success_recv_setevents TORCTL_CODE_TYPE first rest s w hn hc
      rw [h1] at hv
      simp only [Option.some.injEq, Prod.mk.injEq] at hv
      obtain ⟨rfl, -⟩ := hv
      exact Or.inr (Or.inr ⟨rfl, by simp [hk]⟩)
    · obtain ⟨v, hv, -, -, -⟩ :=
        hostCall_success_idle TORCTL_CODE_TYPE first rest s w hcur hn hc
      rw [h1] at hv
      simp only [Option.some.injEq, Prod.mk.injEq] at hv
      obtain ⟨rfl, -⟩ := hv
      exact Or.inr (Or.inr ⟨hn, by simp; omega⟩)

/-- The phase of the handshake after a run, every send succeeding. -/
theorem phase_run (TORCTL_CODE_TYPE : Int → TorControl_ReplyType) (sockd : Int)
    (sendResults : Nat → Int) (hall : ∀ k, 0 < sendResults k) (cs : List HostCall) :
    ∀ (s : TorControlStatistics) (w : World) (k : Nat),
      AuthenticateSent sockd sendResults s w →
      ((s.nextState = TCS_RECV_AUTHENTICATE ∧ k = 0) ∨
        (s.nextState = TCS_RECV_SETEVENTS ∧ k = 1) ∨ (s.nextState = TCS_IDLE ∧ 2 ≤ k)) →
      ∃ sF wF, hostCalls TORCTL_CODE_TYPE cs (s, w) = some (sF, wF) ∧
        AuthenticateSent sockd sendResults sF wF ∧
        ((sF.nextState = TCS_RECV_AUTHENTICATE ∧ k + successReplies TORCTL_CODE_TYPE cs = 0) ∨
          (sF.nextState = TCS_RECV_SETEVENTS ∧ k + successReplies TORCTL_CODE_TYPE cs = 1) ∨
          (sF.nextState = TCS_IDLE ∧ 2 ≤ k + successReplies TORCTL_CODE_TYPE cs)) := by
  induction cs with
  | nil => intro s w k hinv hphase; exact ⟨s, w, rfl, hinv, by simpa [successReplies] using hphase⟩
  | cons c cs ih =>
    intro s w k hinv hphase
    obtain ⟨s1, w1, h1, hinv1, hphase1⟩ :=
      phase_step TORCTL_CODE_TYPE sockd sendResults hall c s w k hinv hphase
    obtain ⟨sF, wF, hF, hinvF, hphaseF⟩ := ih s1 w1 _ hinv1 hphase1
    refine ⟨sF, wF, by simp [hostCalls, h1, hF], hinvF, ?_⟩
    rw [successReplies_cons, ← Nat.add_assoc]
    exact hphaseF

/-- C20: for every session with `currentState = TCS_SEND_AUTHENTICATE` in a world where
nothing has been sent yet and every send succeeds, and for every sequence of invocations
that begins with `initialize`: when the last invocation returns, `currentState` is
`TCS_IDLE` and `nextState` is one of `TCS_RECV_AUTHENTICATE`, `TCS_RECV_SETEVENTS` and
`TCS_IDLE`; and a command is outstanding (more commands have been sent than success-class
replies have been delivered) exactly when `currentState = TCS_IDLE` and `nextState` is not
`TCS_IDLE`. -/
theorem await_states_transient (TORCTL_CODE_TYPE : Int → TorControl_ReplyType)
    (s : TorControlStatistics) (sendResults : Nat → Int) (cs : List HostCall)
    (hnew : s.currentState = TCS_SEND_AUTHENTICATE) (hall : ∀ k, 0 < sendResults k) :
    ∃ sF wF, hostCalls TORCTL_CODE_TYPE (HostCall.init :: cs) (s, World.fresh sendResults) =
        some (sF, wF) ∧
      sF.currentState = TCS_IDLE ∧
      (sF.nextState = TCS_RECV_AUTHENTICATE ∨ sF.nextState = TCS_RECV_SETEVENTS ∨
        sF.nextState = TCS_IDLE) ∧
      (successReplies TORCTL_CODE_TYPE cs < (commands wF.trace).length ↔
        (sF.currentState = TCS_IDLE ∧ sF.nextState ≠ TCS_IDLE)) := by
  have hinit : hostCall TORCTL_CODE_TYPE HostCall.init (s, World.fresh sendResults) =
      some ({ s with currentState := TCS_IDLE, nextState := TCS_RECV_AUTHENTICATE },
        (torControl_authenticate s.targetSockd "password" (World.fresh sendResults)).2) := by
    simp only [hostCall]
    rw [manageState_send_authenticate _ _ hnew]
    simp [World.fresh, hall 0]
  have hinv : AuthenticateSent s.targetSockd sendResults
      { s with currentState := TCS_IDLE, nextState := TCS_RECV_AUTHENTICATE }
      (torControl_authenticate s.targetSockd "password" (World.fresh sendResults)).2 :=
    ⟨rfl, rfl, rfl, Or.inl ⟨rfl, rfl, rfl⟩⟩
  obtain ⟨sF, wF, hF, hinvF, hphaseF⟩ :=
    phase_run TORCTL_CODE_TYPE s.targetSockd sendResults hall cs _ _ 0 hinv
      (Or.inl ⟨rfl, rfl⟩)
  obtain ⟨hcurF, -, -, hcmds⟩ := hinvF
  refine ⟨sF, wF, by simp [hostCalls, hinit, hF], hcurF, ?_, ?_⟩
  · rcases hphaseF with ⟨h, -⟩ | ⟨h, -⟩ | ⟨h, -⟩
    · exact Or.inl h
    · exact Or.inr (Or.inl h)
    · exact Or.inr (Or.inr h)
  · rcases hphaseF with ⟨h, hk⟩ | ⟨h, hk⟩ | ⟨h, hk⟩
    · rcases hcmds with ⟨-, -, ht⟩ | ⟨h2, ht⟩
      · rw [ht]; simp [h, hcurF]; omega
      · rcases h2 with h2 | h2 <;> rw [h] at h2 <;> cases h2
    · rcases hcmds with ⟨h2, -, -⟩ | ⟨-, ht⟩
      · rw [h] at h2; cases h2
      · rw [ht]; simp [h, hcurF]; omega
    · rcases hcmds with ⟨h2, -, -⟩ | ⟨-, ht⟩
      · rw [h] at h2; cases h2
      · rw [ht]; simp [h]; omega

/-- Witness of C20: the sample session, every send succeeding, with an event, an error
reply and a success reply after `initialize`. -/
theorem await_states_transient_witness :
    sampleSession.currentState = TCS_SEND_AUTHENTICATE ∧ (∀ k, 0 < allSendsSucceed k) ∧
    ∃ sF wF, hostCalls hundredsCodeType
        (HostCall.init ::
          [HostCall.bwEvent 650 "650 BW 10 20" 10 20,
           HostCall.responseEvent { code := 515, body := "Authentication failed" } [],
           HostCall.responseEvent { code := 250, body := "OK" } []])
        (sampleSession, World.fresh allSendsSucceed) = some (sF, wF) ∧
      sF.currentState = TCS_IDLE ∧
      (sF.nextState = TCS_RECV_AUTHENTICATE ∨ sF.nextState = TCS_RECV_SETEVENTS ∨
        sF.nextState = TCS_IDLE) ∧
      (successReplies hundredsCodeType
          [HostCall.bwEvent 650 "650 BW 10 20" 10 20,
           HostCall.responseEvent { code := 515, body := "Authentication failed" } [],
           HostCall.responseEvent { code := 250, body := "OK" } []] <
          (commands wF.trace).length ↔
        (sF.currentState = TCS_IDLE ∧ sF.nextState ≠ TCS_IDLE)) :=
  ⟨rfl, fun _ => by show (0 : Int) < 1; decide,
   await_states_transient hundredsCodeType sampleSession allSendsSucceed
     [HostCall.bwEvent 650 "650 BW 10 20" 10 20,
      HostCall.responseEvent { code := 515, body := "Authentication failed" } [],
      HostCall.responseEvent { code := 250, body := "OK" } []]
     rfl (fun _ => by show (0 : Int) < 1; decide)⟩
